import Mathlib

/-!
Verification development for the XRPL lending-demo orchestrator
(`client/src/lib/xrpl-flow.ts` and the dashboard reducer in
`client/src/pages/dashboard.tsx`).

Modelling conventions:
* Each TypeScript step function `step_X(ctx, emit)` is embedded as a pure
  Lean function from the step's network interaction (an oracle value
  describing what the external SDK / network returned, or that it threw)
  and the current flow context to a `StepRun`: the list of emitted events,
  the report lines appended, the updated context, and `some msg` when the
  step threw.
* XRP drop amounts and decimal amount strings are modelled as `Nat` / `Int`
  / `Rat` where arithmetic is performed on them; elsewhere they stay `String`.
* JavaScript `||` on strings treats `""` as falsy; this is modelled
  explicitly (`txResultCode`, `orNA`).
* JavaScript template interpolation of `undefined` prints "undefined";
  `showOpt` models this.
* `Promise.all` / concurrently running promises are modelled by merging the
  two branches' event (and report) lists under an arbitrary boolean
  schedule (`mergeWith`); universally quantified theorems therefore cover
  every interleaving.  A promise that is still in flight when a sibling
  branch throws is modelled as running to completion before the error
  propagates; this only adds traces, never removes them.
-/

/-- One funded test identity, as returned by the faucet. -/
structure WalletI where
  address : String
  seed : String
deriving Repr, DecidableEq

/-- Roles of the four parties (`partySchema.role`). -/
inductive Role where
  | issuer | lender | borrower | broker
deriving Repr, DecidableEq

/-- A `CreatedNode` entry of the transaction metadata's affected-node list. -/
structure CreatedNode where
  ledgerEntryType : String
  ledgerIndex : String
deriving Repr, DecidableEq

/-- One element of `meta.AffectedNodes`; only the optional `CreatedNode`
field is consulted by the code. -/
structure AffectedNode where
  created : Option CreatedNode
deriving Repr, DecidableEq

/-- What `client.submitAndWait` resolved with: the optional
`meta.TransactionResult` (`none` models a missing meta or field), the
response hash `result.result.hash`, and `meta.AffectedNodes`. -/
structure SubmitResponse where
  txResult : Option String
  respHash : String
  affectedNodes : List AffectedNode
deriving Repr, DecidableEq

/-- The outcome of the `autofill`/`sign`/`submitAndWait` sequence inside a
step's `try` block: either some SDK call threw with a message, or a
validated response arrived. -/
inductive SubmitOutcome where
  | thrown (msg : String)
  | response (r : SubmitResponse)
deriving Repr, DecidableEq

/-- Per-step network interaction for a plain single-signature step:
`sigHash` is `signed.hash` computed by `wallet.sign`, `outcome` the
submit outcome. -/
structure TxStepIO where
  sigHash : String
  outcome : SubmitOutcome
deriving Repr, DecidableEq

/-- `(result.result.meta as any)?.TransactionResult || "unknown"`:
a missing field, and also an empty string (falsy in JS), yield "unknown". -/
def txResultCode (m : Option String) : String :=
  match m with
  | none => "unknown"
  | some s => if s = "" then "unknown" else s

/-- Result code of a submit outcome's response (irrelevant in the thrown
case, where the code is never computed; "unknown" returned for totality). -/
def outcomeCode : SubmitOutcome → String
  | .thrown _ => "unknown"
  | .response r => txResultCode r.txResult

/-- JS template interpolation of a possibly-undefined string. -/
def showOpt : Option String → String
  | none => "undefined"
  | some s => s

/-- JS `s || "N/A"` where `s` may be undefined or empty. -/
def orNA : Option String → String
  | none => "N/A"
  | some s => if s = "" then "N/A" else s

/-- JS truthiness of an optional string (used by `if (ctx.vaultId)` etc.). -/
def truthy : Option String → Bool
  | none => false
  | some s => s ≠ ""

/-- A full step record as carried by `step_update` events
(`flowStepSchema`).  Detail maps are association lists in insertion
order; all detail values are rendered to strings. -/
structure FlowStep where
  id : String
  title : String
  description : String
  status : String
  transactionHash : Option String := none
  transactionType : Option String := none
  error : Option String := none
  details : Option (List (String × String)) := none
deriving Repr, DecidableEq

/-- Partial `Party` carried by `party_update` events. -/
structure PartyPatch where
  role : Role
  label : Option String := none
  address : Option String := none
  seed : Option String := none
  balance : Option String := none
  usdBalance : Option String := none
deriving Repr, DecidableEq

/-- The three `state_update` payload shapes that actually occur. -/
inductive StateUpd where
  | vaultId (v : String)
  | loanBrokerId (v : String)
  | scenario (scenarioId : String) (totalSteps : Nat)
deriving Repr, DecidableEq

/-- Events sent through the progress callback. -/
inductive Event where
  | step_update (s : FlowStep)
  | party_update (p : PartyPatch)
  | state_update (u : StateUpd)
  | flow_complete (report : String)
  | flow_error (message : String) (report : String)
deriving Repr, DecidableEq

/-- Step id of an event, when it is a `step_update`. -/
def stepIdOf : Event → Option String
  | .step_update s => some s.id
  | _ => none

/-- The mutable `FlowContext` (minus the report, which `StepRun` tracks as
a per-step delta so that concurrent report writes can be interleaved).
The TS fields start as `null`; dummy empty wallets model that, and they
are assigned by the funding step before any read. -/
structure Ctx where
  issuer : WalletI := ⟨"", ""⟩
  lender : WalletI := ⟨"", ""⟩
  borrower : WalletI := ⟨"", ""⟩
  broker : WalletI := ⟨"", ""⟩
  vaultId : Option String := none
  loanBrokerId : Option String := none
  loanId : Option String := none
deriving Repr, DecidableEq

/-- Authorization payloads produced for `LoanSet` transactions; kept
symbolic since signing/encoding is done by the external SDK. -/
structure LoanSetTx where
  account : String
  loanBrokerID : Option String
  principalRequested : String
  counterparty : String
  interestRate : Nat
  paymentInterval : Nat
  paymentTotal : Nat
  signingPubKey : Option String
  fee : Option Nat
deriving Repr, DecidableEq

/-- Signed/assembled blobs for `LoanSet` submissions. -/
inductive LoanBlob where
  | signedSingle (tx : LoanSetTx) (signer : Role)
  | signedMulti (tx : LoanSetTx) (signer : Role)
  | multisigned (blobs : List LoanBlob)
  | countersigned (signer : Role) (inner : LoanBlob)
deriving Repr

/-- Observable outcome of running one step (or a compound phase):
the events emitted, report lines appended, updated context, `some msg`
when it threw, and any `LoanSet` blobs submitted. -/
structure StepRun where
  events : List Event
  report : List String
  ctx : Ctx
  err : Option String := none
  submitted : List LoanBlob := []
deriving Repr

/-- `await a; await f(...)`: sequential composition, short-circuiting on a
thrown first part. -/
def seqRun (a : StepRun) (f : Ctx → StepRun) : StepRun :=
  match a.err with
  | some _ => a
  | none =>
    let b := f a.ctx
    ⟨a.events ++ b.events, a.report ++ b.report, b.ctx, b.err,
      a.submitted ++ b.submitted⟩

/-- Merge two lists under a boolean schedule: `true` consumes from the
left list, `false` from the right; an exhausted schedule or side
concatenates the rest.  Every interleaving of `xs` and `ys` is
`mergeWith bs xs ys` for some `bs`. -/
def mergeWith : List Bool → List α → List α → List α
  | [], xs, ys => xs ++ ys
  | _ :: _, [], ys => ys
  | _ :: _, xs, [] => xs
  | true :: bs, x :: xs, ys => x :: mergeWith bs xs ys
  | false :: bs, xs, y :: ys => y :: mergeWith bs xs ys

/-- `"=".repeat(70)`. -/
def eq70 : String := String.mk (List.replicate 70 '=')

/-- `step_issuerSetup`. -/
def step_issuerSetup (io : TxStepIO) (ctx : Ctx) : StepRun :=
  let run : Event := .step_update ⟨"issuer-setup", "Enable Issuer Settings",
    "Setting DefaultRipple on Issuer account for IOU issuance", "running",
    none, some "AccountSet", none, none⟩
  match io.outcome with
  | .thrown msg =>
    { events := [run, .step_update ⟨"issuer-setup", "Enable Issuer Settings",
        "Failed to set up issuer", "error", none, none, some msg, none⟩],
      report := [], ctx := ctx, err := some msg }
  | .response r =>
    let txResult := txResultCode r.txResult
    let ok := txResult = "tesSUCCESS"
    let classified : Event := .step_update ⟨"issuer-setup",
      "Enable Issuer Settings", "DefaultRipple enabled on Issuer account",
      if ok then "success" else "error", some io.sigHash, some "AccountSet",
      if ok then none else some ("Transaction failed: " ++ txResult),
      some [("Result", txResult), ("Flag", "asfDefaultRipple")]⟩
    let rep := [eq70, "ISSUER ACCOUNT SETUP (DefaultRipple)", eq70,
      "TX Hash: " ++ io.sigHash, "Result:  " ++ txResult, ""]
    if ok then
      { events := [run, classified], report := rep, ctx := ctx, err := none }
    else
      -- the non-success throw is caught by the step's own catch, which
      -- emits a second error event before rethrowing
      let msg := "AccountSet failed: " ++ txResult
      { events := [run, classified, .step_update ⟨"issuer-setup",
          "Enable Issuer Settings", "Failed to set up issuer", "error",
          none, none, some msg, none⟩],
        report := rep, ctx := ctx, err := some msg }

/-- Scan of `meta.AffectedNodes` for the first `CreatedNode` of the
expected ledger-entry type; `""` when there is none. -/
def firstCreatedId (nodes : List AffectedNode) (ty : String) : String :=
  match nodes with
  | [] => ""
  | n :: rest =>
    match n.created with
    | some c => if c.ledgerEntryType = ty then c.ledgerIndex
                else firstCreatedId rest ty
    | none => firstCreatedId rest ty

/-- Sanity checks of the embedding on concrete inputs. -/
example : txResultCode none = "unknown" := rfl
example : txResultCode (some "") = "unknown" := rfl
example : txResultCode (some "tecPATH_DRY") = "tecPATH_DRY" := rfl
example :
    firstCreatedId [⟨none⟩, ⟨some ⟨"Loan", "AB"⟩⟩, ⟨some ⟨"Vault", "CD"⟩⟩]
      "Vault" = "CD" := rfl
example :
    firstCreatedId [⟨some ⟨"Vault", "AB"⟩⟩, ⟨some ⟨"Vault", "CD"⟩⟩]
      "Vault" = "AB" := rfl
example : firstCreatedId [⟨some ⟨"Loan", "AB"⟩⟩] "Vault" = "" := rfl

/-- `if (s === "") "N/A" else s` for plain strings (`vaultId || "N/A"`). -/
def orNAs (s : String) : String := if s = "" then "N/A" else s

/-- What the faucet interaction produced: a thrown error or four funded
wallets. -/
inductive FundOutcome where
  | thrown (msg : String)
  | ok (issuer lender borrower broker : WalletI)
deriving Repr, DecidableEq

/-- `step_fundWallets`. -/
def step_fundWallets (o : FundOutcome) (ctx : Ctx) : StepRun :=
  let run : Event := .step_update ⟨"fund-wallets", "Fund All Wallets",
    "Creating and funding 4 wallets on XRPL Devnet via faucet", "running",
    none, some "Faucet", none, none⟩
  match o with
  | .thrown msg =>
    { events := [run, .step_update ⟨"fund-wallets", "Fund All Wallets",
        "Failed to fund wallets", "error", none, none, some msg, none⟩],
      report := [], ctx := ctx, err := some msg }
  | .ok i l b k =>
    let ctx' := { ctx with issuer := i, lender := l, borrower := b, broker := k }
    { events := [run,
        .party_update ⟨.issuer, some "USD Issuer", some i.address, some i.seed,
          some "100 XRP", none⟩,
        .party_update ⟨.lender, some "Lender", some l.address, some l.seed,
          some "100 XRP", none⟩,
        .party_update ⟨.borrower, some "Borrower", some b.address, some b.seed,
          some "100 XRP", none⟩,
        .party_update ⟨.broker, some "Broker", some k.address, some k.seed,
          some "100 XRP", none⟩,
        .step_update ⟨"fund-wallets", "Fund All Wallets",
          "All 4 wallets funded successfully on XRPL Devnet", "success",
          none, some "Faucet", none,
          some [("Issuer", i.address), ("Lender", l.address),
                ("Borrower", b.address), ("Broker", k.address)]⟩],
      report := [eq70, "FUND WALLETS", eq70,
        "Issuer:   " ++ i.address ++ " (seed: " ++ i.seed ++ ")",
        "Lender:   " ++ l.address ++ " (seed: " ++ l.seed ++ ")",
        "Borrower: " ++ b.address ++ " (seed: " ++ b.seed ++ ")",
        "Broker:   " ++ k.address ++ " (seed: " ++ k.seed ++ ")", ""],
      ctx := ctx', err := none }

/-- `step_lenderTrustline`. -/
def step_lenderTrustline (io : TxStepIO) (ctx : Ctx) : StepRun :=
  let run : Event := .step_update ⟨"lender-trustline",
    "Lender Creates USD Trustline",
    "Lender creates a trustline to the Issuer for USD", "running",
    none, some "TrustSet", none, none⟩
  match io.outcome with
  | .thrown msg =>
    { events := [run, .step_update ⟨"lender-trustline",
        "Lender Creates USD Trustline", "Failed to create trustline",
        "error", none, none, some msg, none⟩],
      report := [], ctx := ctx, err := some msg }
  | .response r =>
    let c := txResultCode r.txResult
    let ok := c = "tesSUCCESS"
    let classified : Event := .step_update ⟨"lender-trustline",
      "Lender Creates USD Trustline",
      "Lender can now hold USD issued by the Issuer",
      if ok then "success" else "error", some io.sigHash, some "TrustSet",
      if ok then none else some ("TrustSet failed: " ++ c),
      some [("Result", c), ("Currency", "USD"), ("Limit", "100,000")]⟩
    let rep := [eq70, "LENDER CREATES USD TRUSTLINE", eq70,
      "TX Hash:  " ++ io.sigHash, "Result:   " ++ c, ""]
    if ok then
      { events := [run, classified], report := rep, ctx := ctx, err := none }
    else
      let msg := "TrustSet failed: " ++ c
      { events := [run, classified, .step_update ⟨"lender-trustline",
          "Lender Creates USD Trustline", "Failed to create trustline",
          "error", none, none, some msg, none⟩],
        report := rep, ctx := ctx, err := some msg }

/-- `step_issuerSendsUSDLender`. -/
def step_issuerSendsUSDLender (io : TxStepIO) (ctx : Ctx) : StepRun :=
  let run : Event := .step_update ⟨"issuer-sends-usd-lender",
    "Issuer Sends USD to Lender",
    "Issuer sends 10,000 USD to the Lender's wallet", "running",
    none, some "Payment", none, none⟩
  match io.outcome with
  | .thrown msg =>
    { events := [run, .step_update ⟨"issuer-sends-usd-lender",
        "Issuer Sends USD to Lender", "Failed to send USD", "error",
        none, none, some msg, none⟩],
      report := [], ctx := ctx, err := some msg }
  | .response r =>
    let c := txResultCode r.txResult
    let ok := c = "tesSUCCESS"
    let party : Event := .party_update ⟨.lender, none, none, none, none,
      some "10,000 USD"⟩
    let classified : Event := .step_update ⟨"issuer-sends-usd-lender",
      "Issuer Sends USD to Lender", "10,000 USD sent to Lender",
      if ok then "success" else "error", some io.sigHash, some "Payment",
      if ok then none else some ("Payment failed: " ++ c),
      some [("Result", c), ("Amount", "10,000 USD")]⟩
    let rep := [eq70, "ISSUER SENDS USD TO LENDER", eq70,
      "TX Hash: " ++ io.sigHash, "Result:  " ++ c, "Amount:  10,000 USD", ""]
    if ok then
      { events := [run, party, classified], report := rep, ctx := ctx,
        err := none }
    else
      let msg := "Payment failed: " ++ c
      { events := [run, party, classified, .step_update
          ⟨"issuer-sends-usd-lender", "Issuer Sends USD to Lender",
            "Failed to send USD", "error", none, none, some msg, none⟩],
        report := rep, ctx := ctx, err := some msg }

/-- `step_brokerTrustline`. -/
def step_brokerTrustline (io : TxStepIO) (ctx : Ctx) : StepRun :=
  let run : Event := .step_update ⟨"broker-trustline",
    "Broker Creates USD Trustline",
    "Broker creates a trustline to the Issuer for USD", "running",
    none, some "TrustSet", none, none⟩
  match io.outcome with
  | .thrown msg =>
    { events := [run, .step_update ⟨"broker-trustline",
        "Broker Creates USD Trustline", "Failed", "error",
        none, none, some msg, none⟩],
      report := [], ctx := ctx, err := some msg }
  | .response r =>
    let c := txResultCode r.txResult
    let ok := c = "tesSUCCESS"
    let classified : Event := .step_update ⟨"broker-trustline",
      "Broker Creates USD Trustline", "Broker can now interact with USD",
      if ok then "success" else "error", some io.sigHash, some "TrustSet",
      if ok then none else some ("TrustSet failed: " ++ c),
      some [("Result", c)]⟩
    let rep := [eq70, "BROKER CREATES USD TRUSTLINE", eq70,
      "TX Hash: " ++ io.sigHash, "Result:  " ++ c, ""]
    if ok then
      { events := [run, classified], report := rep, ctx := ctx, err := none }
    else
      let msg := "TrustSet failed: " ++ c
      { events := [run, classified, .step_update ⟨"broker-trustline",
          "Broker Creates USD Trustline", "Failed", "error",
          none, none, some msg, none⟩],
        report := rep, ctx := ctx, err := some msg }

/-- `step_issuerSendsUSDBroker`. -/
def step_issuerSendsUSDBroker (io : TxStepIO) (ctx : Ctx) : StepRun :=
  let run : Event := .step_update ⟨"issuer-sends-usd-broker",
    "Issuer Sends USD to Broker",
    "Issuer sends 1,000 USD to Broker for first-loss capital", "running",
    none, some "Payment", none, none⟩
  match io.outcome with
  | .thrown msg =>
    { events := [run, .step_update ⟨"issuer-sends-usd-broker",
        "Issuer Sends USD to Broker", "Failed", "error",
        none, none, some msg, none⟩],
      report := [], ctx := ctx, err := some msg }
  | .response r =>
    let c := txResultCode r.txResult
    let ok := c = "tesSUCCESS"
    let party : Event := .party_update ⟨.broker, none, none, none, none,
      some "1,000 USD"⟩
    let classified : Event := .step_update ⟨"issuer-sends-usd-broker",
      "Issuer Sends USD to Broker", "1,000 USD sent to Broker for cover",
      if ok then "success" else "error", some io.sigHash, some "Payment",
      if ok then none else some ("Payment failed: " ++ c),
      some [("Result", c), ("Amount", "1,000 USD")]⟩
    let rep := [eq70, "ISSUER SENDS USD TO BROKER (for cover)", eq70,
      "TX Hash: " ++ io.sigHash, "Result:  " ++ c, "Amount:  1,000 USD", ""]
    if ok then
      { events := [run, party, classified], report := rep, ctx := ctx,
        err := none }
    else
      let msg := "Payment to Broker failed: " ++ c
      { events := [run, party, classified, .step_update
          ⟨"issuer-sends-usd-broker", "Issuer Sends USD to Broker",
            "Failed", "error", none, none, some msg, none⟩],
        report := rep, ctx := ctx, err := some msg }

/-- `step_createVault`. -/
def step_createVault (io : TxStepIO) (ctx : Ctx) : StepRun :=
  let run : Event := .step_update ⟨"create-vault", "Broker Creates USD Vault",
    "Broker creates a Single Asset Vault (XLS-65) for USD", "running",
    none, some "VaultCreate", none, none⟩
  match io.outcome with
  | .thrown msg =>
    { events := [run, .step_update ⟨"create-vault",
        "Broker Creates USD Vault", "Failed to create vault", "error",
        none, none, some msg, none⟩],
      report := [], ctx := ctx, err := some msg }
  | .response r =>
    let c := txResultCode r.txResult
    let ok := c = "tesSUCCESS"
    let vaultId := firstCreatedId r.affectedNodes "Vault"
    let ctx' := { ctx with vaultId := some vaultId }
    let classified : Event := .step_update ⟨"create-vault",
      "Broker Creates USD Vault",
      if vaultId ≠ "" then "Vault created: " ++ vaultId.take 12 ++ "..."
      else "Vault creation submitted",
      if ok then "success" else "error", some io.sigHash, some "VaultCreate",
      if ok then none else some ("VaultCreate failed: " ++ c),
      some [("Result", c), ("Vault ID", orNAs vaultId), ("Asset", "USD"),
            ("Max Capacity", "100,000")]⟩
    let rep := [eq70, "BROKER CREATES USD VAULT (XLS-65 VaultCreate)", eq70,
      "TX Hash:  " ++ io.sigHash, "Result:   " ++ c,
      "Vault ID: " ++ orNAs vaultId, ""]
    if ok then
      { events := [run, .state_update (.vaultId vaultId), classified],
        report := rep, ctx := ctx', err := none }
    else
      let msg := "VaultCreate failed: " ++ c
      { events := [run, .state_update (.vaultId vaultId), classified,
          .step_update ⟨"create-vault", "Broker Creates USD Vault",
            "Failed to create vault", "error", none, none, some msg, none⟩],
        report := rep, ctx := ctx', err := some msg }

/-- `step_createLoanBroker`. -/
def step_createLoanBroker (io : TxStepIO) (ctx : Ctx) : StepRun :=
  let run : Event := .step_update ⟨"create-loan-broker",
    "Broker Creates LoanBroker",
    "Broker creates the LoanBroker entry (XLS-66 LoanBrokerSet)", "running",
    none, some "LoanBrokerSet", none, none⟩
  match io.outcome with
  | .thrown msg =>
    { events := [run, .step_update ⟨"create-loan-broker",
        "Broker Creates LoanBroker", "Failed", "error",
        none, none, some msg, none⟩],
      report := [], ctx := ctx, err := some msg }
  | .response r =>
    let c := txResultCode r.txResult
    let ok := c = "tesSUCCESS"
    let loanBrokerId := firstCreatedId r.affectedNodes "LoanBroker"
    let ctx' := { ctx with loanBrokerId := some loanBrokerId }
    let classified : Event := .step_update ⟨"create-loan-broker",
      "Broker Creates LoanBroker",
      if loanBrokerId ≠ "" then
        "LoanBroker: " ++ loanBrokerId.take 12 ++ "..."
      else "LoanBrokerSet submitted",
      if ok then "success" else "error", some io.sigHash,
      some "LoanBrokerSet",
      if ok then none else some ("LoanBrokerSet failed: " ++ c),
      some [("Result", c), ("LoanBroker ID", orNAs loanBrokerId),
            ("Vault ID", showOpt ctx.vaultId)]⟩
    let rep := [eq70, "BROKER CREATES LOANBROKER (XLS-66 LoanBrokerSet)", eq70,
      "TX Hash:        " ++ io.sigHash, "Result:         " ++ c,
      "LoanBroker ID:  " ++ orNAs loanBrokerId,
      "Vault ID:       " ++ showOpt ctx.vaultId, ""]
    if ok then
      { events := [run, .state_update (.loanBrokerId loanBrokerId),
          classified],
        report := rep, ctx := ctx', err := none }
    else
      let msg := "LoanBrokerSet failed: " ++ c
      { events := [run, .state_update (.loanBrokerId loanBrokerId),
          classified, .step_update ⟨"create-loan-broker",
            "Broker Creates LoanBroker", "Failed", "error",
            none, none, some msg, none⟩],
        report := rep, ctx := ctx', err := some msg }

/-- `step_lenderDeposits`. -/
def step_lenderDeposits (io : TxStepIO) (ctx : Ctx) : StepRun :=
  let run : Event := .step_update ⟨"lender-deposits",
    "Lender Deposits USD in Vault",
    "Lender deposits 5,000 USD into the Vault (XLS-65 VaultDeposit)",
    "running", none, some "VaultDeposit", none, none⟩
  match io.outcome with
  | .thrown msg =>
    { events := [run, .step_update ⟨"lender-deposits",
        "Lender Deposits USD in Vault", "Failed", "error",
        none, none, some msg, none⟩],
      report := [], ctx := ctx, err := some msg }
  | .response r =>
    let c := txResultCode r.txResult
    let ok := c = "tesSUCCESS"
    let party : Event := .party_update ⟨.lender, none, none, none, none,
      some "5,000 USD (5,000 in Vault)"⟩
    let classified : Event := .step_update ⟨"lender-deposits",
      "Lender Deposits USD in Vault", "5,000 USD deposited into the Vault",
      if ok then "success" else "error", some io.sigHash,
      some "VaultDeposit",
      if ok then none else some ("VaultDeposit failed: " ++ c),
      some [("Result", c), ("Amount", "5,000 USD"),
            ("Vault ID", showOpt ctx.vaultId)]⟩
    let rep := [eq70, "LENDER DEPOSITS USD INTO VAULT (XLS-65 VaultDeposit)",
      eq70, "TX Hash:  " ++ io.sigHash, "Result:   " ++ c,
      "Amount:   5,000 USD", "Vault ID: " ++ showOpt ctx.vaultId, ""]
    if ok then
      { events := [run, party, classified], report := rep, ctx := ctx,
        err := none }
    else
      let msg := "VaultDeposit failed: " ++ c
      { events := [run, party, classified, .step_update ⟨"lender-deposits",
          "Lender Deposits USD in Vault", "Failed", "error",
          none, none, some msg, none⟩],
        report := rep, ctx := ctx, err := some msg }

/-- `step_borrowerTrustline`. -/
def step_borrowerTrustline (io : TxStepIO) (ctx : Ctx) : StepRun :=
  let run : Event := .step_update ⟨"borrower-trustline",
    "Borrower Creates USD Trustline",
    "Borrower creates a trustline to Issuer for USD so they can receive the loan",
    "running", none, some "TrustSet", none, none⟩
  match io.outcome with
  | .thrown msg =>
    { events := [run, .step_update ⟨"borrower-trustline",
        "Borrower Creates USD Trustline", "Failed", "error",
        none, none, some msg, none⟩],
      report := [], ctx := ctx, err := some msg }
  | .response r =>
    let c := txResultCode r.txResult
    let ok := c = "tesSUCCESS"
    let classified : Event := .step_update ⟨"borrower-trustline",
      "Borrower Creates USD Trustline", "Borrower can now receive USD",
      if ok then "success" else "error", some io.sigHash, some "TrustSet",
      if ok then none else some ("TrustSet failed: " ++ c),
      some [("Result", c)]⟩
    let rep := [eq70, "BORROWER CREATES USD TRUSTLINE", eq70,
      "TX Hash: " ++ io.sigHash, "Result:  " ++ c, ""]
    if ok then
      { events := [run, classified], report := rep, ctx := ctx, err := none }
    else
      let msg := "TrustSet failed: " ++ c
      { events := [run, classified, .step_update ⟨"borrower-trustline",
          "Borrower Creates USD Trustline", "Failed", "error",
          none, none, some msg, none⟩],
        report := rep, ctx := ctx, err := some msg }

/-- `step_brokerCoverDeposit`. -/
def step_brokerCoverDeposit (io : TxStepIO) (ctx : Ctx) : StepRun :=
  let run : Event := .step_update ⟨"broker-cover-deposit",
    "Broker Deposits First-Loss Capital",
    "Broker deposits first-loss capital to enable loan issuance (LoanBrokerCoverDeposit)",
    "running", none, some "LoanBrokerCoverDeposit", none, none⟩
  match io.outcome with
  | .thrown msg =>
    { events := [run, .step_update ⟨"broker-cover-deposit",
        "Broker Deposits First-Loss Capital", "Failed", "error",
        none, none, some msg, none⟩],
      report := [], ctx := ctx, err := some msg }
  | .response r =>
    let c := txResultCode r.txResult
    let ok := c = "tesSUCCESS"
    let classified : Event := .step_update ⟨"broker-cover-deposit",
      "Broker Deposits First-Loss Capital",
      "500 USD deposited as first-loss capital",
      if ok then "success" else "error", some io.sigHash,
      some "LoanBrokerCoverDeposit",
      if ok then none else some ("LoanBrokerCoverDeposit failed: " ++ c),
      some [("Result", c), ("Cover Amount", "500 USD"),
            ("LoanBroker ID", showOpt ctx.loanBrokerId)]⟩
    let rep := [eq70,
      "BROKER DEPOSITS FIRST-LOSS CAPITAL (LoanBrokerCoverDeposit)", eq70,
      "TX Hash:       " ++ io.sigHash, "Result:        " ++ c,
      "Cover Amount:  500 USD", ""]
    if ok then
      { events := [run, classified], report := rep, ctx := ctx, err := none }
    else
      let msg := "LoanBrokerCoverDeposit failed: " ++ c
      { events := [run, classified, .step_update ⟨"broker-cover-deposit",
          "Broker Deposits First-Loss Capital", "Failed", "error",
          none, none, some msg, none⟩],
        report := rep, ctx := ctx, err := some msg }

/-- Outcome of a `ledger_entry` pre-flight query: the rendered node dump,
or the thrown message (swallowed by the step's inner catch). -/
inductive QueryOutcome where
  | qok (dump : String)
  | qfail (msg : String)
deriving Repr, DecidableEq

/-- `JSON.stringify(prepared, null, 2)` of a LoanSet payload, modelled by
the derived `Repr` rendering (an injective textual dump; the claims never
inspect this text). -/
def jsonOfTx (t : LoanSetTx) : String := toString (repr t)

/-- Network interaction of `step_loanSet`: two pre-flight queries, the
autofilled fee, the broker-signed and counterparty-signed hashes, and the
submit outcome. -/
structure LoanSetIO where
  vaultQuery : QueryOutcome
  brokerQuery : QueryOutcome
  autofillFee : Option Nat
  sigHash : String
  cpHash : String
  outcome : SubmitOutcome
deriving Repr, DecidableEq

/-- Report lines of a pre-flight vault query. -/
def preflightVaultLines : QueryOutcome → List String
  | .qok dump => ["Pre-flight Vault State:", dump, ""]
  | .qfail msg => ["Vault query failed: " ++ msg, ""]

/-- Report lines of a pre-flight loan-broker query. -/
def preflightBrokerLines : QueryOutcome → List String
  | .qok dump => ["Pre-flight LoanBroker State:", dump, ""]
  | .qfail msg => ["LoanBroker query failed: " ++ msg, ""]

/-- The autofilled `LoanSet` payload built by `step_loanSet` (no
`SigningPubKey` field; fee from autofill). -/
def loanSetPrepared (ctx : Ctx) (autofillFee : Option Nat) : LoanSetTx :=
  ⟨ctx.broker.address, ctx.loanBrokerId, "1000", ctx.borrower.address,
    500, 3600, 12, none, autofillFee⟩

/-- `step_loanSet` (CounterpartySignature co-sign path).  A throw from an
SDK call inside the `try` block is modelled at the `submitAndWait` call;
an earlier-throwing call would differ only in dropping report lines
appended between it and the submit. -/
def step_loanSet (io : LoanSetIO) (ctx : Ctx) : StepRun :=
  let run : Event := .step_update ⟨"loan-set-countersign",
    "Create Loan with CounterpartySignature",
    "Broker creates LoanSet; Borrower co-signs via CounterpartySignature field",
    "running", none, some "LoanSet", none, none⟩
  let prepared := loanSetPrepared ctx io.autofillFee
  let blob : LoanBlob := .countersigned .borrower (.signedSingle prepared .broker)
  let preRep := [eq70,
      "CREATE LOAN WITH COUNTERPARTY SIGNATURE (XLS-66 LoanSet)", eq70, ""]
    ++ preflightVaultLines io.vaultQuery
    ++ preflightBrokerLines io.brokerQuery
    ++ ["LoanSet Transaction (autofilled):", jsonOfTx prepared, "",
        "Broker signed TX hash: " ++ io.sigHash, "",
        "Counterparty signed TX hash: " ++ io.cpHash, ""]
  match io.outcome with
  | .thrown msg =>
    { events := [run, .step_update ⟨"loan-set-countersign",
        "Create Loan with CounterpartySignature",
        "Failed - see error details", "error", none, some "LoanSet",
        some msg, none⟩],
      report := preRep ++ ["ERROR: " ++ msg, ""],
      ctx := ctx, err := some msg, submitted := [blob] }
  | .response r =>
    let c := txResultCode r.txResult
    let ok := c = "tesSUCCESS"
    let loanId := firstCreatedId r.affectedNodes "Loan"
    let ctx' := { ctx with loanId := some loanId }
    let midRep := ["TX Hash:  " ++ r.respHash, "Result:   " ++ c,
      "Loan ID:  " ++ orNAs loanId, "",
      "Co-signing: Broker signs first, then Borrower co-signs via signLoanSetByCounterparty",
      ""]
    let classified : Event := .step_update ⟨"loan-set-countersign",
      "Create Loan with CounterpartySignature",
      if loanId ≠ "" then
        "Loan created: " ++ loanId.take 12 ++ "... | Borrower receives 1,000 USD"
      else "LoanSet submitted: " ++ c,
      if ok then "success" else "error", some r.respHash, some "LoanSet",
      if ok then none else some ("LoanSet failed: " ++ c),
      some [("Result", c), ("Loan ID", orNAs loanId),
            ("Principal Requested", "1,000 USD"),
            ("Interest Rate", "5% (500 basis points)"),
            ("Payment Interval", "3600s (1 hour)"),
            ("Payment Total", "12 payments"),
            ("Co-Sign Method", "signLoanSetByCounterparty"),
            ("Counterparty", ctx.borrower.address)]⟩
    if ok then
      { events := [run,
          .party_update ⟨.borrower, none, none, none, none,
            some "1,000 USD (loan)"⟩, classified],
        report := preRep ++ midRep, ctx := ctx', err := none,
        submitted := [blob] }
    else
      let msg := "LoanSet failed: " ++ c
      { events := [run, classified, .step_update ⟨"loan-set-countersign",
          "Create Loan with CounterpartySignature",
          "Failed - see error details", "error", none, some "LoanSet",
          some msg, none⟩],
        report := preRep ++ midRep ++ ["ERROR: " ++ msg, ""],
        ctx := ctx', err := some msg, submitted := [blob] }

/-- `step_signerListSet`. -/
def step_signerListSet (io : TxStepIO) (ctx : Ctx) : StepRun :=
  let run : Event := .step_update ⟨"signerlist-set",
    "Set Up SignerList on Broker",
    "Broker configures SignerListSet adding Lender as delegate signer (quorum=1) for multi-sig authorization",
    "running", none, some "SignerListSet", none, none⟩
  match io.outcome with
  | .thrown msg =>
    { events := [run, .step_update ⟨"signerlist-set",
        "Set Up SignerList on Broker", "Failed", "error",
        none, none, some msg, none⟩],
      report := [], ctx := ctx, err := some msg }
  | .response r =>
    let c := txResultCode r.txResult
    let ok := c = "tesSUCCESS"
    let classified : Event := .step_update ⟨"signerlist-set",
      "Set Up SignerList on Broker", "SignerList configured: " ++ c,
      if ok then "success" else "error", some io.sigHash,
      some "SignerListSet",
      if ok then none else some ("SignerListSet failed: " ++ c),
      some [("Result", c), ("Quorum", "1"),
            ("Delegate Signer", ctx.lender.address ++ " (Lender, weight: 1)"),
            ("Purpose", "Enable Lender to authorize broker transactions via multi-sig"),
            ("Note", "Broker cannot be in its own SignerList; Lender acts as delegate")]⟩
    let rep := [eq70, "SIGNERLIST SET (Multi-Sig Setup)", eq70,
      "TX Hash:  " ++ io.sigHash, "Result:   " ++ c,
      "Account:  " ++ ctx.broker.address,
      "Quorum:   1",
      "Delegate: " ++ ctx.lender.address ++ " (Lender, weight: 1)", "",
      "This configures the broker account so that transactions can be",
      "authorized via standard XRPL multi-signature (Signers array).",
      "The Lender is added as a delegate signer for the broker.",
      "Note: XRPL prohibits accounts from being in their own SignerList.", "",
      "For LoanSet, the broker's Account authorization comes via the Lender's",
      "multi-sig, while the Borrower provides CounterpartySignature separately.",
      ""]
    if ok then
      { events := [run, classified], report := rep, ctx := ctx, err := none }
    else
      let msg := "SignerListSet failed: " ++ c
      { events := [run, classified, .step_update ⟨"signerlist-set",
          "Set Up SignerList on Broker", "Failed", "error",
          none, none, some msg, none⟩],
        report := rep, ctx := ctx, err := some msg }

/-- Network interaction of `step_loanSetMultiSig`. -/
structure LoanSetMsIO where
  vaultQuery : QueryOutcome
  brokerQuery : QueryOutcome
  autofillFee : Option Nat
  outcome : SubmitOutcome
deriving Repr, DecidableEq

/-- The `LoanSet` payload of the multi-sig path after autofill and the
fee adjustment: `SigningPubKey` is set to the empty string, and
`prepared.Fee = String(parseInt(prepared.Fee || "12") * (signerCount+1))`
with `signerCount = 1`. -/
def loanSetMsPrepared (ctx : Ctx) (autofillFee : Option Nat) : LoanSetTx :=
  let signerCount := 1
  let baseFee := autofillFee.getD 12
  ⟨ctx.broker.address, ctx.loanBrokerId, "1000", ctx.borrower.address,
    500, 3600, 12, some "", some (baseFee * (signerCount + 1))⟩

/-- The blob submitted by the multi-sig path: the Lender's multi-signature
is assembled by `xrpl.multisign`, then the Borrower's
CounterpartySignature is layered on top, and that single payload is
submitted. -/
def loanSetMsBlob (ctx : Ctx) (autofillFee : Option Nat) : LoanBlob :=
  .countersigned .borrower
    (.multisigned [.signedMulti (loanSetMsPrepared ctx autofillFee) .lender])

/-- `step_loanSetMultiSig` (SignerList multi-sig + CounterpartySignature).
Throw modelling as in `step_loanSet`. -/
def step_loanSetMultiSig (io : LoanSetMsIO) (ctx : Ctx) : StepRun :=
  let run : Event := .step_update ⟨"loan-set-multisig",
    "Create Loan with Multi-Sig + CounterpartySignature",
    "Lender signs via multi-sig (as broker delegate) + Borrower provides CounterpartySignature",
    "running", none, some "LoanSet", none, none⟩
  let signerCount := 1
  let baseFee := io.autofillFee.getD 12
  let prepared := loanSetMsPrepared ctx io.autofillFee
  let blob := loanSetMsBlob ctx io.autofillFee
  let preRep := [eq70,
      "CREATE LOAN WITH SIGNERLIST MULTI-SIG + COUNTERPARTYSIGNATURE", eq70,
      "", "This demonstrates combining TWO XRPL authorization mechanisms:",
      "1. SignerList multi-sig: Lender signs on behalf of Broker (Account)",
      "2. CounterpartySignature: Borrower co-signs as Counterparty", "",
      "The Broker delegated signing authority to the Lender via SignerListSet.",
      ""]
    ++ preflightVaultLines io.vaultQuery
    ++ preflightBrokerLines io.brokerQuery
    ++ ["LoanSet Transaction (autofilled for multi-sig):", jsonOfTx prepared,
        "",
        "Fee adjusted to " ++ toString (baseFee * (signerCount + 1))
          ++ " drops (" ++ toString (signerCount + 1)
          ++ "x base fee for " ++ toString signerCount ++ " signer)", "",
        "Step 1: Lender signs via multi-sig (as broker's delegate from SignerList)...",
        "",
        "Lender multi-sig signature added (delegate signer for broker account)",
        "",
        "Multi-sig transaction assembled with xrpl.multisign()", "",
        "Step 2: Borrower adds CounterpartySignature (dual authorization)...",
        "",
        "CounterpartySignature added by Borrower", ""]
  match io.outcome with
  | .thrown msg =>
    { events := [run, .step_update ⟨"loan-set-multisig",
        "Create Loan with Multi-Sig + CounterpartySignature",
        "Failed - see error details", "error", none, some "LoanSet",
        some msg, none⟩],
      report := preRep ++ ["ERROR: " ++ msg, ""],
      ctx := ctx, err := some msg, submitted := [blob] }
  | .response r =>
    let c := txResultCode r.txResult
    let ok := c = "tesSUCCESS"
    let loanId := firstCreatedId r.affectedNodes "Loan"
    let ctx' := { ctx with loanId := some loanId }
    let midRep := ["TX Hash:  " ++ r.respHash, "Result:   " ++ c,
      "Loan ID:  " ++ orNAs loanId, "",
      "Authorization summary:",
      "  Account (Broker): " ++ ctx.broker.address,
      "    -> Delegated to Lender via SignerList multi-sig",
      "  Counterparty (Borrower): " ++ ctx.borrower.address,
      "    -> Authorized via CounterpartySignature", "",
      "This shows both XRPL authorization mechanisms working together:",
      "  - Standard multi-sig (Signers array) for Account authorization",
      "  - CounterpartySignature (XLS-66) for Counterparty authorization", ""]
    let classified : Event := .step_update ⟨"loan-set-multisig",
      "Create Loan with Multi-Sig + CounterpartySignature",
      if loanId ≠ "" then
        "Loan created: " ++ loanId.take 12 ++ "... | Dual-mechanism auth"
      else "LoanSet submitted: " ++ c,
      if ok then "success" else "error", some r.respHash, some "LoanSet",
      if ok then none else some ("LoanSet failed: " ++ c),
      some [("Result", c), ("Loan ID", orNAs loanId),
            ("Principal Requested", "1,000 USD"),
            ("Interest Rate", "5% (500 basis points)"),
            ("Payment Interval", "3600s (1 hour)"),
            ("Payment Total", "12 payments"),
            ("Account Auth", "Multi-sig (Lender as broker delegate)"),
            ("Counterparty Auth", "CounterpartySignature (Borrower)"),
            ("Delegate Signer", ctx.lender.address),
            ("Note", "Combines SignerList multi-sig + CounterpartySignature")]⟩
    if ok then
      { events := [run,
          .party_update ⟨.borrower, none, none, none, none,
            some "1,000 USD (loan)"⟩, classified],
        report := preRep ++ midRep, ctx := ctx', err := none,
        submitted := [blob] }
    else
      let msg := "LoanSet multi-sig failed: " ++ c
      { events := [run, classified, .step_update ⟨"loan-set-multisig",
          "Create Loan with Multi-Sig + CounterpartySignature",
          "Failed - see error details", "error", none, some "LoanSet",
          some msg, none⟩],
        report := preRep ++ midRep ++ ["ERROR: " ++ msg, ""],
        ctx := ctx', err := some msg, submitted := [blob] }

/-- `step_fundBorrowerForRepayment`. -/
def step_fundBorrowerForRepayment (io : TxStepIO) (ctx : Ctx) : StepRun :=
  let run : Event := .step_update ⟨"fund-borrower-repayment",
    "Fund Borrower for Repayment",
    "Issuer sends additional USD to Borrower so they can repay principal + interest",
    "running", none, some "Payment", none, none⟩
  match io.outcome with
  | .thrown msg =>
    { events := [run, .step_update ⟨"fund-borrower-repayment",
        "Fund Borrower for Repayment", "Failed", "error",
        none, none, some msg, none⟩],
      report := [], ctx := ctx, err := some msg }
  | .response r =>
    let c := txResultCode r.txResult
    let ok := c = "tesSUCCESS"
    let classified : Event := .step_update ⟨"fund-borrower-repayment",
      "Fund Borrower for Repayment",
      "500 USD sent to Borrower for interest coverage",
      if ok then "success" else "error", some io.sigHash, some "Payment",
      if ok then none else some ("Payment failed: " ++ c),
      some [("Result", c), ("Amount", "500 USD"),
            ("Purpose", "Cover interest on loan repayment")]⟩
    let rep := [eq70, "FUND BORROWER FOR REPAYMENT", eq70,
      "TX Hash: " ++ io.sigHash, "Result:  " ++ c,
      "Amount:  500 USD (to cover interest on repayment)", ""]
    if ok then
      { events := [run, classified], report := rep, ctx := ctx, err := none }
    else
      let msg := "Borrower funding failed: " ++ c
      { events := [run, classified, .step_update ⟨"fund-borrower-repayment",
          "Fund Borrower for Repayment", "Failed", "error",
          none, none, some msg, none⟩],
        report := rep, ctx := ctx, err := some msg }

/-- Outcome of the early-repayment loan-state query: the query threw, or
it succeeded with an optional (truthy) `OutstandingPrincipal` carried as
the raw string together with its `parseFloat` value, modelled as an exact
rational. -/
inductive LoanQueryOutcome where
  | qfail (msg : String)
  | qok (outstanding : Option (String × ℚ))
deriving Repr, DecidableEq

/-- Network interaction of `step_loanPay`. -/
structure LoanPayIO where
  query : LoanQueryOutcome
  sigHash : String
  outcome : SubmitOutcome
deriving Repr, DecidableEq

/-- The payment amount chosen by `step_loanPay`: `100` by default; for an
early full repayment, `Math.ceil(parseFloat(outstanding) * 1.1)` when the
loan-state query reported an outstanding principal, and the fixed
fallback `1100` when the query threw. -/
def loanPayAmount (isEarly : Bool) (q : LoanQueryOutcome) : ℤ :=
  if isEarly then
    match q with
    | .qok (some st) => ⌈st.2 * (11 / 10 : ℚ)⌉
    | .qok none => 100
    | .qfail _ => 1100
  else 100

/-- Report lines of the early-repayment amount determination. -/
def loanPayQueryLines (isEarly : Bool) (q : LoanQueryOutcome) : List String :=
  if isEarly then
    match q with
    | .qok (some st) =>
      ["Outstanding principal: " ++ st.1,
       "Paying: " ++ toString (loanPayAmount true q)
         ++ " (includes closing interest)", ""]
    | .qok none => []
    | .qfail msg =>
      ["Could not query loan state: " ++ msg
         ++ ". Using estimated amount: 1100", ""]
  else []

/-- `step_loanPay` (both the scheduled-payment and the early-full forms). -/
def step_loanPay (isEarly : Bool) (io : LoanPayIO) (ctx : Ctx) : StepRun :=
  let stepId := if isEarly then "loan-pay-early" else "loan-pay"
  let title := if isEarly then "Borrower Repays Loan Early (Full)"
    else "Borrower Makes Loan Payment"
  let desc := if isEarly then
    "Borrower repays the full outstanding balance early via LoanPay"
    else "Borrower makes a scheduled payment on the loan via LoanPay"
  let run : Event := .step_update ⟨stepId, title, desc, "running",
    none, some "LoanPay", none, none⟩
  let pay := loanPayAmount isEarly io.query
  let payS := toString pay
  let qLines := loanPayQueryLines isEarly io.query
  match io.outcome with
  | .thrown msg =>
    { events := [run, .step_update ⟨stepId, title, "Failed", "error",
        none, none, some msg, none⟩],
      report := qLines, ctx := ctx, err := some msg }
  | .response r =>
    let c := txResultCode r.txResult
    let ok := c = "tesSUCCESS"
    let classified : Event := .step_update ⟨stepId, title,
      payS ++ " USD payment " ++ (if ok then "succeeded" else "failed"),
      if ok then "success" else "error", some io.sigHash, some "LoanPay",
      if ok then none else some ("LoanPay failed: " ++ c),
      some [("Result", c), ("Amount", payS ++ " USD"),
            ("Loan ID", showOpt ctx.loanId),
            ("Type", if isEarly then "Early Full Repayment"
              else "Scheduled Payment")]⟩
    let rep := qLines ++ [eq70,
      if isEarly then "BORROWER REPAYS LOAN EARLY (LoanPay)"
      else "BORROWER MAKES LOAN PAYMENT (LoanPay)", eq70,
      "TX Hash:  " ++ io.sigHash, "Result:   " ++ c,
      "Amount:   " ++ payS ++ " USD", "Loan ID:  " ++ showOpt ctx.loanId, ""]
    if ok then
      { events := [run, classified], report := rep, ctx := ctx, err := none }
    else
      let msg := "LoanPay failed: " ++ c
      { events := [run, classified, .step_update ⟨stepId, title, "Failed",
          "error", none, none, some msg, none⟩],
        report := rep, ctx := ctx, err := some msg }

/-- `step_loanManageDefault`. -/
def step_loanManageDefault (io : TxStepIO) (ctx : Ctx) : StepRun :=
  let run : Event := .step_update ⟨"loan-manage-default",
    "Broker Defaults the Loan",
    "Broker marks the loan as defaulted via LoanManage (borrower failed to pay)",
    "running", none, some "LoanManage", none, none⟩
  match io.outcome with
  | .thrown msg =>
    { events := [run, .step_update ⟨"loan-manage-default",
        "Broker Defaults the Loan", "Failed", "error",
        none, none, some msg, none⟩],
      report := [], ctx := ctx, err := some msg }
  | .response r =>
    let c := txResultCode r.txResult
    let ok := c = "tesSUCCESS"
    let classified : Event := .step_update ⟨"loan-manage-default",
      "Broker Defaults the Loan", "Loan defaulted: " ++ c,
      if ok then "success" else "error", some io.sigHash, some "LoanManage",
      if ok then none else some ("LoanManage failed: " ++ c),
      some [("Result", c), ("Loan ID", showOpt ctx.loanId),
            ("Action", "Default (Flags: 1)"),
            ("Impact", "First-loss capital may be liquidated to cover losses")]⟩
    let rep := [eq70, "BROKER DEFAULTS THE LOAN (LoanManage)", eq70,
      "TX Hash:  " ++ io.sigHash, "Result:   " ++ c,
      "Loan ID:  " ++ showOpt ctx.loanId,
      "The broker marks the loan as defaulted. First-loss capital may be liquidated",
      "to protect vault depositors from losses.", ""]
    if ok then
      { events := [run, classified], report := rep, ctx := ctx, err := none }
    else
      let msg := "LoanManage failed: " ++ c
      { events := [run, classified, .step_update ⟨"loan-manage-default",
          "Broker Defaults the Loan", "Failed", "error",
          none, none, some msg, none⟩],
        report := rep, ctx := ctx, err := some msg }

/-- `step_loanDelete`. -/
def step_loanDelete (io : TxStepIO) (ctx : Ctx) : StepRun :=
  let run : Event := .step_update ⟨"loan-delete", "Delete Loan",
    "Deleting the matured/defaulted loan object from the ledger (LoanDelete)",
    "running", none, some "LoanDelete", none, none⟩
  match io.outcome with
  | .thrown msg =>
    { events := [run, .step_update ⟨"loan-delete", "Delete Loan",
        "Failed", "error", none, none, some msg, none⟩],
      report := [], ctx := ctx, err := some msg }
  | .response r =>
    let c := txResultCode r.txResult
    let ok := c = "tesSUCCESS"
    let classified : Event := .step_update ⟨"loan-delete", "Delete Loan",
      "Loan deleted: " ++ c,
      if ok then "success" else "error", some io.sigHash, some "LoanDelete",
      if ok then none else some ("LoanDelete failed: " ++ c),
      some [("Result", c), ("Loan ID", showOpt ctx.loanId)]⟩
    let rep := [eq70, "DELETE LOAN (LoanDelete)", eq70,
      "TX Hash:  " ++ io.sigHash, "Result:   " ++ c,
      "Loan ID:  " ++ showOpt ctx.loanId, ""]
    if ok then
      { events := [run, classified], report := rep, ctx := ctx, err := none }
    else
      let msg := "LoanDelete failed: " ++ c
      { events := [run, classified, .step_update ⟨"loan-delete",
          "Delete Loan", "Failed", "error", none, none, some msg, none⟩],
        report := rep, ctx := ctx, err := some msg }

/-- Network interaction of a step with a silently-caught pre-query
(`CoverAvailable` / `AssetsAvailable`): `none` when the query threw,
`some none` when it succeeded without a truthy field, `some (some v)`
when the field was present with value `v`. -/
structure QStepIO where
  query : Option (Option String)
  sigHash : String
  outcome : SubmitOutcome
deriving Repr, DecidableEq

/-- `step_brokerCoverWithdraw`. -/
def step_brokerCoverWithdraw (io : QStepIO) (ctx : Ctx) : StepRun :=
  let run : Event := .step_update ⟨"broker-cover-withdraw",
    "Broker Withdraws First-Loss Capital",
    "Broker withdraws remaining first-loss capital (LoanBrokerCoverWithdraw)",
    "running", none, some "LoanBrokerCoverWithdraw", none, none⟩
  let w := match io.query with
    | some (some cover) => cover
    | _ => "500"
  let qLines := match io.query with
    | some (some cover) => ["CoverAvailable: " ++ cover, ""]
    | _ => []
  match io.outcome with
  | .thrown msg =>
    { events := [run, .step_update ⟨"broker-cover-withdraw",
        "Broker Withdraws First-Loss Capital", "Failed", "error",
        none, none, some msg, none⟩],
      report := qLines, ctx := ctx, err := some msg }
  | .response r =>
    let c := txResultCode r.txResult
    let ok := c = "tesSUCCESS"
    let classified : Event := .step_update ⟨"broker-cover-withdraw",
      "Broker Withdraws First-Loss Capital",
      w ++ " USD withdrawn: " ++ c,
      if ok then "success" else "error", some io.sigHash,
      some "LoanBrokerCoverWithdraw",
      if ok then none else some ("LoanBrokerCoverWithdraw failed: " ++ c),
      some [("Result", c), ("Amount", w ++ " USD"),
            ("LoanBroker ID", showOpt ctx.loanBrokerId)]⟩
    let rep := qLines ++ [eq70,
      "BROKER WITHDRAWS FIRST-LOSS CAPITAL (LoanBrokerCoverWithdraw)", eq70,
      "TX Hash:  " ++ io.sigHash, "Result:   " ++ c,
      "Amount:   " ++ w ++ " USD", ""]
    if ok then
      { events := [run, classified], report := rep, ctx := ctx, err := none }
    else
      let msg := "LoanBrokerCoverWithdraw failed: " ++ c
      { events := [run, classified, .step_update ⟨"broker-cover-withdraw",
          "Broker Withdraws First-Loss Capital", "Failed", "error",
          none, none, some msg, none⟩],
        report := rep, ctx := ctx, err := some msg }

/-- `step_loanBrokerDelete`. -/
def step_loanBrokerDelete (io : TxStepIO) (ctx : Ctx) : StepRun :=
  let run : Event := .step_update ⟨"loan-broker-delete", "Delete LoanBroker",
    "Deleting the LoanBroker object after all loans are cleared (LoanBrokerDelete)",
    "running", none, some "LoanBrokerDelete", none, none⟩
  match io.outcome with
  | .thrown msg =>
    { events := [run, .step_update ⟨"loan-broker-delete",
        "Delete LoanBroker", "Failed", "error",
        none, none, some msg, none⟩],
      report := [], ctx := ctx, err := some msg }
  | .response r =>
    let c := txResultCode r.txResult
    let ok := c = "tesSUCCESS"
    let classified : Event := .step_update ⟨"loan-broker-delete",
      "Delete LoanBroker", "LoanBroker deleted: " ++ c,
      if ok then "success" else "error", some io.sigHash,
      some "LoanBrokerDelete",
      if ok then none else some ("LoanBrokerDelete failed: " ++ c),
      some [("Result", c), ("LoanBroker ID", showOpt ctx.loanBrokerId)]⟩
    let rep := [eq70, "DELETE LOANBROKER (LoanBrokerDelete)", eq70,
      "TX Hash:        " ++ io.sigHash, "Result:         " ++ c,
      "LoanBroker ID:  " ++ showOpt ctx.loanBrokerId, ""]
    if ok then
      { events := [run, classified], report := rep, ctx := ctx, err := none }
    else
      let msg := "LoanBrokerDelete failed: " ++ c
      { events := [run, classified, .step_update ⟨"loan-broker-delete",
          "Delete LoanBroker", "Failed", "error",
          none, none, some msg, none⟩],
        report := rep, ctx := ctx, err := some msg }

/-- `step_vaultWithdraw`. -/
def step_vaultWithdraw (io : QStepIO) (ctx : Ctx) : StepRun :=
  let run : Event := .step_update ⟨"vault-withdraw",
    "Lender Withdraws from Vault",
    "Lender withdraws their deposited funds from the Vault (VaultWithdraw)",
    "running", none, some "VaultWithdraw", none, none⟩
  let w := match io.query with
    | some (some avail) => avail
    | _ => "5000"
  let qLines := match io.query with
    | some (some avail) => ["Vault AssetsAvailable: " ++ avail, ""]
    | _ => []
  match io.outcome with
  | .thrown msg =>
    { events := [run, .step_update ⟨"vault-withdraw",
        "Lender Withdraws from Vault", "Failed", "error",
        none, none, some msg, none⟩],
      report := qLines, ctx := ctx, err := some msg }
  | .response r =>
    let c := txResultCode r.txResult
    let ok := c = "tesSUCCESS"
    let classified : Event := .step_update ⟨"vault-withdraw",
      "Lender Withdraws from Vault", w ++ " USD withdrawn: " ++ c,
      if ok then "success" else "error", some io.sigHash,
      some "VaultWithdraw",
      if ok then none else some ("VaultWithdraw failed: " ++ c),
      some [("Result", c), ("Amount", w ++ " USD"),
            ("Vault ID", showOpt ctx.vaultId)]⟩
    let rep := qLines ++ [eq70, "LENDER WITHDRAWS FROM VAULT (VaultWithdraw)",
      eq70, "TX Hash:  " ++ io.sigHash, "Result:   " ++ c,
      "Amount:   " ++ w ++ " USD", "Vault ID: " ++ showOpt ctx.vaultId, ""]
    if ok then
      { events := [run, classified], report := rep, ctx := ctx, err := none }
    else
      let msg := "VaultWithdraw failed: " ++ c
      { events := [run, classified, .step_update ⟨"vault-withdraw",
          "Lender Withdraws from Vault", "Failed", "error",
          none, none, some msg, none⟩],
        report := rep, ctx := ctx, err := some msg }

/-- `step_vaultDelete`. -/
def step_vaultDelete (io : TxStepIO) (ctx : Ctx) : StepRun :=
  let run : Event := .step_update ⟨"vault-delete", "Delete Vault",
    "Deleting the Vault object after all funds withdrawn (VaultDelete)",
    "running", none, some "VaultDelete", none, none⟩
  match io.outcome with
  | .thrown msg =>
    { events := [run, .step_update ⟨"vault-delete", "Delete Vault",
        "Failed", "error", none, none, some msg, none⟩],
      report := [], ctx := ctx, err := some msg }
  | .response r =>
    let c := txResultCode r.txResult
    let ok := c = "tesSUCCESS"
    let classified : Event := .step_update ⟨"vault-delete", "Delete Vault",
      "Vault deleted: " ++ c,
      if ok then "success" else "error", some io.sigHash, some "VaultDelete",
      if ok then none else some ("VaultDelete failed: " ++ c),
      some [("Result", c), ("Vault ID", showOpt ctx.vaultId)]⟩
    let rep := [eq70, "DELETE VAULT (VaultDelete)", eq70,
      "TX Hash:  " ++ io.sigHash, "Result:   " ++ c,
      "Vault ID: " ++ showOpt ctx.vaultId, ""]
    if ok then
      { events := [run, classified], report := rep, ctx := ctx, err := none }
    else
      let msg := "VaultDelete failed: " ++ c
      { events := [run, classified, .step_update ⟨"vault-delete",
          "Delete Vault", "Failed", "error", none, none, some msg, none⟩],
        report := rep, ctx := ctx, err := some msg }

/-- `step_batchIssuerPayments` (XLS-56 Batch of the two issuer payments).
The batch transaction and its two inner payments are built from literals
and addresses; only the submit outcome is observable here. -/
def step_batchIssuerPayments (o : SubmitOutcome) (ctx : Ctx) : StepRun :=
  let run : Event := .step_update ⟨"batch-issuer-payments",
    "Batch: Issuer USD Payments",
    "Sending USD to Lender (10,000) and Broker (1,000) in a single Batch transaction (XLS-56)",
    "running", none, some "Batch (2 Payment)", none, none⟩
  match o with
  | .thrown msg =>
    { events := [run, .step_update ⟨"batch-issuer-payments",
        "Batch: Issuer USD Payments", "Batch failed: " ++ msg, "error",
        none, some "Batch (2 Payment)", some msg, none⟩],
      report := [], ctx := ctx, err := some msg }
  | .response r =>
    let c := txResultCode r.txResult
    let ok := c = "tesSUCCESS"
    let parties : List Event := [
      .party_update ⟨.lender, none, none, none, none, some "10,000 USD"⟩,
      .party_update ⟨.broker, none, none, none, none, some "1,000 USD"⟩]
    let classified : Event := .step_update ⟨"batch-issuer-payments",
      "Batch: Issuer USD Payments",
      "Both payments sent atomically: " ++ c,
      if ok then "success" else "error", some r.respHash,
      some "Batch (2 Payment)",
      if ok then none else some ("Batch payments failed: " ++ c),
      some [("Result", c), ("Mode", "ALLORNOTHING"),
            ("Payment 1", "10,000 USD  Lender"),
            ("Payment 2", "1,000 USD  Broker"),
            ("XLS-56", "Single-account Batch (no BatchSigners needed)")]⟩
    let rep := [eq70, "BATCH ISSUER PAYMENTS (XLS-56 Batch  2 Payment)", eq70,
      "TX Hash:  " ++ r.respHash, "Result:   " ++ c,
      "Mode:     ALLORNOTHING",
      "Inner 1:  Payment 10,000 USD  Lender",
      "Inner 2:  Payment 1,000 USD  Broker (for first-loss capital)",
      "Benefit:  Single-account Batch  no BatchSigners needed, one signature",
      ""]
    if ok then
      { events := run :: parties ++ [classified], report := rep, ctx := ctx,
        err := none }
    else
      let msg := "Batch payments failed: " ++ c
      { events := run :: parties ++ [classified, .step_update
          ⟨"batch-issuer-payments", "Batch: Issuer USD Payments",
            "Batch failed: " ++ msg, "error", none, some "Batch (2 Payment)",
            some msg, none⟩],
        report := rep, ctx := ctx, err := some msg }

/-- `xrpl.dropsToXrp` on a drop balance, modelled on exact naturals (the
library renders a decimal XRP amount; the claims never inspect the text). -/
def dropsToXrp (drops : Nat) : String :=
  toString (drops / 1000000) ++
    (if drops % 1000000 = 0 then "" else "." ++ toString (drops % 1000000))

/-- Per-party and per-object query results of `step_verifyStates`:
`xrp` is the `account_info` balance in drops (`none` = the query threw);
`usd` is the USD trust-line balance (`none` = no USD line found or the
`account_lines` query threw; both leave the detail map untouched);
the object fields are rendered `ledger_entry` node dumps (`none` = the
lookup threw, recorded as "Deleted or not found"). -/
structure VerifyOutcome where
  issuerXrp : Option Nat
  lenderXrp : Option Nat
  borrowerXrp : Option Nat
  brokerXrp : Option Nat
  issuerUsd : Option String
  lenderUsd : Option String
  borrowerUsd : Option String
  brokerUsd : Option String
  vaultNode : Option String
  loanBrokerNode : Option String
  loanNode : Option String
deriving Repr, DecidableEq

/-- Detail entries contributed by one party in `step_verifyStates`. -/
def verifyPartyDetails (label : String) (xrp : Option Nat)
    (usd : Option String) : List (String × String) :=
  (match xrp with
   | some drops => [(label ++ " XRP Balance", dropsToXrp drops)]
   | none => [(label ++ " XRP Balance", "Error fetching")])
  ++ (match usd with
      | some bal => [(label ++ " USD Balance", bal)]
      | none => [])

/-- Detail entry for one tracked ledger object in `step_verifyStates`. -/
def verifyObjectDetail (key : String) (id : Option String)
    (node : Option String) : List (String × String) :=
  if truthy id then
    match node with
    | some dump => [(key, dump)]
    | none => [(key, "Deleted or not found")]
  else []

/-- The detail map assembled by `step_verifyStates`. -/
def verifyDetails (v : VerifyOutcome) (ctx : Ctx) : List (String × String) :=
  verifyPartyDetails "Issuer" v.issuerXrp v.issuerUsd
  ++ verifyPartyDetails "Lender" v.lenderXrp v.lenderUsd
  ++ verifyPartyDetails "Borrower" v.borrowerXrp v.borrowerUsd
  ++ verifyPartyDetails "Broker" v.brokerXrp v.brokerUsd
  ++ verifyObjectDetail "Vault Object" ctx.vaultId v.vaultNode
  ++ verifyObjectDetail "LoanBroker Object" ctx.loanBrokerId v.loanBrokerNode
  ++ verifyObjectDetail "Loan Object" ctx.loanId v.loanNode

/-- `step_verifyStates`.  Every network lookup inside the step sits in its
own try/catch whose handler only records a placeholder, so the outer
catch is unreachable: the step always emits a "success" terminal event
and never rethrows. -/
def step_verifyStates (v : VerifyOutcome) (ctx : Ctx) : StepRun :=
  let run : Event := .step_update ⟨"verify-states", "Verify Final States",
    "Querying account balances and ledger objects to verify the flow",
    "running", none, some "Verification", none, none⟩
  let details := verifyDetails v ctx
  { events := [run, .step_update ⟨"verify-states", "Verify Final States",
      "All account balances and ledger objects verified", "success",
      none, some "Verification", none, some details⟩],
    report := [eq70, "FINAL STATE VERIFICATION", eq70, ""]
      ++ details.map (fun kv => kv.1 ++ ": " ++ kv.2) ++ [""],
    ctx := ctx, err := none }

/-- All network / SDK interactions of one run. -/
structure Oracle where
  connect : Option String := none
  fund : FundOutcome
  issuerSetup : TxStepIO
  lenderTrustline : TxStepIO
  brokerTrustline : TxStepIO
  borrowerTrustline : TxStepIO
  batchPayments : SubmitOutcome
  sendUSDLender : TxStepIO
  sendUSDBroker : TxStepIO
  createVault : TxStepIO
  createLoanBroker : TxStepIO
  lenderDeposits : TxStepIO
  brokerCoverDeposit : TxStepIO
  signerListSet : TxStepIO
  loanSet : LoanSetIO
  loanSetMs : LoanSetMsIO
  fundBorrower : TxStepIO
  loanPay : LoanPayIO
  loanPayEarly : LoanPayIO
  loanManageDefault : TxStepIO
  loanDelete : TxStepIO
  coverWithdraw : QStepIO
  loanBrokerDelete : TxStepIO
  vaultWithdraw : QStepIO
  vaultDelete : TxStepIO
  verify : VerifyOutcome
  startedIso : String := ""
  completedIso : String := ""
  failedIso : String := ""
deriving Repr, DecidableEq

/-- Interleaving schedules for the parallel phases of the shared setup
(event-list and report-list merges chosen independently; this is a
superset of the temporally coupled JS interleavings, so universally
quantified theorems cover all real traces). -/
structure Sched where
  p3e1 : List Bool := []
  p3e2 : List Bool := []
  p3r1 : List Bool := []
  p3r2 : List Bool := []
  p4e : List Bool := []
  p4r : List Bool := []
  p5e : List Bool := []
  p5r : List Bool := []
deriving Repr, DecidableEq

/-- Phase 3 of `runSharedSetup`: the three trustlines via `Promise.all`
(none of them writes to the context; a rejection of any member rejects
the phase). -/
def phase3 (o : Oracle) (s : Sched) (c : Ctx) : StepRun :=
  let a := step_lenderTrustline o.lenderTrustline c
  let b := step_brokerTrustline o.brokerTrustline c
  let d := step_borrowerTrustline o.borrowerTrustline c
  { events := mergeWith s.p3e1 a.events (mergeWith s.p3e2 b.events d.events),
    report := mergeWith s.p3r1 a.report (mergeWith s.p3r2 b.report d.report),
    ctx := c, err := a.err <|> b.err <|> d.err }

/-- The payments side of phase 4: the Batch step with the sequential
two-payment fallback on a batch rejection (the one designed fallback). -/
def paymentsWithFallback (o : Oracle) (c : Ctx) : StepRun :=
  let b := step_batchIssuerPayments o.batchPayments c
  match b.err with
  | none => b
  | some e =>
    let note := ["Batch payments unavailable (" ++ e
      ++ "), using sequential fallback...", ""]
    let r := seqRun (step_issuerSendsUSDLender o.sendUSDLender c) fun c1 =>
      step_issuerSendsUSDBroker o.sendUSDBroker c1
    { events := b.events ++ r.events,
      report := b.report ++ note ++ r.report,
      ctx := r.ctx, err := r.err }

/-- Phase 4 of `runSharedSetup`: `VaultCreate` launched first and awaited
after the Batch-or-fallback payments.  Only the vault branch writes to the
context (`vaultId`); a payments error propagates before the vault await. -/
def phase4 (o : Oracle) (s : Sched) (c : Ctx) : StepRun :=
  let v := step_createVault o.createVault c
  let p := paymentsWithFallback o c
  { events := mergeWith s.p4e v.events p.events,
    report := mergeWith s.p4r v.report p.report,
    ctx := v.ctx, err := p.err <|> v.err }

/-- Phase 5 of `runSharedSetup`: `LoanBrokerSet` and `VaultDeposit` via
`Promise.all`; only the loan-broker branch writes to the context. -/
def phase5 (o : Oracle) (s : Sched) (c : Ctx) : StepRun :=
  let lb := step_createLoanBroker o.createLoanBroker c
  let ld := step_lenderDeposits o.lenderDeposits c
  { events := mergeWith s.p5e lb.events ld.events,
    report := mergeWith s.p5r lb.report ld.report,
    ctx := lb.ctx, err := lb.err <|> ld.err }

/-- `runSharedSetup`: the six shared phases in dependency order. -/
def runSharedSetup (o : Oracle) (s : Sched) (c : Ctx) : StepRun :=
  seqRun (step_fundWallets o.fund c) fun c1 =>
  seqRun (step_issuerSetup o.issuerSetup c1) fun c2 =>
  seqRun (phase3 o s c2) fun c3 =>
  seqRun (phase4 o s c3) fun c4 =>
  seqRun (phase5 o s c4) fun c5 =>
  step_brokerCoverDeposit o.brokerCoverDeposit c5

/-- Scenario identifiers. -/
inductive ScenarioId where
  | loanCreation | loanPayment | loanDefault | earlyRepayment
  | fullLifecycle | signerlistLoan
deriving Repr, DecidableEq

/-- The TS string literal of a scenario id. -/
def ScenarioId.str : ScenarioId → String
  | .loanCreation => "loan-creation"
  | .loanPayment => "loan-payment"
  | .loanDefault => "loan-default"
  | .earlyRepayment => "early-repayment"
  | .fullLifecycle => "full-lifecycle"
  | .signerlistLoan => "signerlist-loan"

/-- `getScenarioStepCount`. -/
def getScenarioStepCount : ScenarioId → Nat
  | .loanCreation => 12
  | .loanPayment => 13
  | .loanDefault => 14
  | .earlyRepayment => 15
  | .fullLifecycle => 18
  | .signerlistLoan => 13

/-- The scenario-specific tail executed after the shared setup. -/
def scenarioTail (sc : ScenarioId) (o : Oracle) (c : Ctx) : StepRun :=
  match sc with
  | .signerlistLoan =>
    seqRun (step_signerListSet o.signerListSet c) fun c1 =>
    seqRun (step_loanSetMultiSig o.loanSetMs c1) fun c2 =>
    step_verifyStates o.verify c2
  | .loanCreation =>
    seqRun (step_loanSet o.loanSet c) fun c1 =>
    step_verifyStates o.verify c1
  | .loanPayment =>
    seqRun (step_loanSet o.loanSet c) fun c1 =>
    seqRun (step_loanPay false o.loanPay c1) fun c2 =>
    step_verifyStates o.verify c2
  | .loanDefault =>
    seqRun (step_loanSet o.loanSet c) fun c1 =>
    seqRun (step_loanManageDefault o.loanManageDefault c1) fun c2 =>
    seqRun (step_loanDelete o.loanDelete c2) fun c3 =>
    step_verifyStates o.verify c3
  | .earlyRepayment =>
    seqRun (step_loanSet o.loanSet c) fun c1 =>
    seqRun (step_fundBorrowerForRepayment o.fundBorrower c1) fun c2 =>
    seqRun (step_loanPay true o.loanPayEarly c2) fun c3 =>
    seqRun (step_loanDelete o.loanDelete c3) fun c4 =>
    step_verifyStates o.verify c4
  | .fullLifecycle =>
    seqRun (step_loanSet o.loanSet c) fun c1 =>
    seqRun (step_loanPay false o.loanPay c1) fun c2 =>
    seqRun (step_loanManageDefault o.loanManageDefault c2) fun c3 =>
    seqRun (step_loanDelete o.loanDelete c3) fun c4 =>
    seqRun (step_brokerCoverWithdraw o.coverWithdraw c4) fun c5 =>
    seqRun (step_loanBrokerDelete o.loanBrokerDelete c5) fun c6 =>
    seqRun (step_vaultWithdraw o.vaultWithdraw c6) fun c7 =>
    step_vaultDelete o.vaultDelete c7

/-- The network URL constant. -/
def network : String := "wss://s.devnet.rippletest.net:51233"

/-- `ctx.report.join("\n")`. -/
def joinR (lines : List String) : String := String.intercalate "\n" lines

/-- Observable outcome of a whole run. -/
structure FlowOut where
  events : List Event
  report : List String
  returned : String
  ctx : Ctx
deriving Repr

/-- The report block appended by the outer catch of `runLendingFlow`. -/
def failBlock (e : String) (failedIso : String) : List String :=
  [eq70, "FLOW FAILED", eq70, "Error: " ++ e, "Failed at: " ++ failedIso, ""]

/-- The success summary block appended before `flow_complete`. -/
def successBlock (sc : ScenarioId) (o : Oracle) (c : Ctx) : List String :=
  [eq70, "FLOW COMPLETED SUCCESSFULLY", eq70,
   "Completed: " ++ o.completedIso, "",
   "Summary:",
   "- Scenario:   " ++ sc.str,
   "- Issuer:     " ++ c.issuer.address,
   "- Lender:     " ++ c.lender.address,
   "- Borrower:   " ++ c.borrower.address,
   "- Broker:     " ++ c.broker.address,
   "- Vault ID:   " ++ orNA c.vaultId,
   "- LoanBroker: " ++ orNA c.loanBrokerId,
   "- Loan ID:    " ++ orNA c.loanId, ""]

/-- The report header written before connecting. -/
def headerReport (sc : ScenarioId) (o : Oracle) : List String :=
  [eq70, "XRPL LENDING PROTOCOL - " ++ sc.str.toUpper ++ " SCENARIO", eq70,
   "Network:  " ++ network, "Scenario: " ++ sc.str,
   "Started:  " ++ o.startedIso, ""]

/-- The shared setup composed with the scenario tail (the body of the
orchestrator's `try` block after connecting). -/
def flowBody (o : Oracle) (s : Sched) (sc : ScenarioId) : StepRun :=
  seqRun (runSharedSetup o s {}) (scenarioTail sc o)

/-- `runLendingFlow`: header and `state_update`, connect, shared setup,
scenario tail, then the `flow_complete` / `flow_error` terminal event;
always resolves with the joined report. -/
def runLendingFlow (o : Oracle) (s : Sched) (sc : ScenarioId) : FlowOut :=
  let headerEvents : List Event :=
    [.state_update (.scenario sc.str (getScenarioStepCount sc))]
  match o.connect with
  | some e =>
    let rep := headerReport sc o ++ failBlock e o.failedIso
    ⟨headerEvents ++ [.flow_error e (joinR rep)], rep, joinR rep, {}⟩
  | none =>
    let connectedRep := headerReport sc o ++ ["Connected to " ++ network, ""]
    let body := flowBody o s sc
    match body.err with
    | some e =>
      let rep := connectedRep ++ body.report ++ failBlock e o.failedIso
      ⟨headerEvents ++ body.events ++ [.flow_error e (joinR rep)], rep,
        joinR rep, body.ctx⟩
    | none =>
      let rep := connectedRep ++ body.report ++ successBlock sc o body.ctx
      ⟨headerEvents ++ body.events ++ [.flow_complete (joinR rep)], rep,
        joinR rep, body.ctx⟩

/-- A Party as held in dashboard state (`partySchema`): role and label
are always present, the remaining fields optional. -/
structure DashParty where
  role : Role
  label : String
  address : Option String := none
  seed : Option String := none
  balance : Option String := none
  usdBalance : Option String := none
deriving Repr, DecidableEq

/-- `{ ...p, ...party }`: the spread overwrites exactly the keys present
in the incoming partial Party. -/
def mergeParty (p : DashParty) (q : PartyPatch) : DashParty :=
  ⟨q.role, q.label.getD p.label, q.address <|> p.address,
    q.seed <|> p.seed, q.balance <|> p.balance,
    q.usdBalance <|> p.usdBalance⟩

/-- Dashboard `FlowState` (`flowStateSchema`; `totalSteps` is the dynamic
key added by the scenario `state_update` spread). -/
structure DashState where
  status : String
  parties : List DashParty
  steps : List FlowStep
  vaultId : Option String := none
  loanBrokerId : Option String := none
  loanId : Option String := none
  network : String
  scenarioId : Option String := none
  totalSteps : Option Nat := none
  startedAt : Option String := none
  completedAt : Option String := none
  errorMessage : Option String := none
deriving Repr, DecidableEq

/-- `initialState` of the dashboard. -/
def initialState : DashState :=
  { status := "idle",
    parties := [⟨.issuer, "USD Issuer", none, none, none, none⟩,
                ⟨.lender, "Lender", none, none, none, none⟩,
                ⟨.borrower, "Borrower", none, none, none, none⟩,
                ⟨.broker, "Broker", none, none, none, none⟩],
    steps := [],
    network := network }

/-- The `step_update` upsert: replace the first step with the same id,
else push at the end. -/
def upsertStep : List FlowStep → FlowStep → List FlowStep
  | [], st => [st]
  | s :: rest, st =>
    if s.id = st.id then st :: rest else s :: upsertStep rest st

/-- The dashboard `emit` handler in `startFlow` as a state transition
(`now` models `new Date().toISOString()` at handling time). -/
def applyEvent (now : String) (s : DashState) : Event → DashState
  | .step_update st => { s with steps := upsertStep s.steps st }
  | .party_update q =>
    { s with parties := s.parties.map fun p =>
        if p.role = q.role then mergeParty p q else p }
  | .state_update (.vaultId v) => { s with vaultId := some v }
  | .state_update (.loanBrokerId v) => { s with loanBrokerId := some v }
  | .state_update (.scenario sid n) =>
    { s with scenarioId := some sid, totalSteps := some n }
  | .flow_complete _ =>
    { s with status := "completed", completedAt := some now }
  | .flow_error m _ => { s with status := "error", errorMessage := some m }

/-- `setState({ ...initialState, status: "running", scenarioId })`. -/
def startState (sel : String) : DashState :=
  { initialState with status := "running", scenarioId := some sel }

/-- Count of events satisfying a predicate. -/
def countP (p : Event → Bool) (l : List Event) : Nat := (l.filter p).length

/-- The "running" `step_update` of a given step id. -/
def isRunningOf (sid : String) : Event → Bool
  | .step_update fs => fs.id == sid && fs.status == "running"
  | _ => false

/-- A terminal ("success"/"error") `step_update` of a given step id. -/
def isTerminalOf (sid : String) : Event → Bool
  | .step_update fs =>
    fs.id == sid && (fs.status == "success" || fs.status == "error")
  | _ => false

/-- A "success" `step_update` of a given step id. -/
def isSuccessOf (sid : String) : Event → Bool
  | .step_update fs => fs.id == sid && fs.status == "success"
  | _ => false

/-- An "error" `step_update` of a given step id. -/
def isErrorOf (sid : String) : Event → Bool
  | .step_update fs => fs.id == sid && fs.status == "error"
  | _ => false

/-- Run-terminal error event? -/
def isFlowError : Event → Bool
  | .flow_error _ _ => true
  | _ => false

/-- Run-terminal completion event? -/
def isFlowComplete : Event → Bool
  | .flow_complete _ => true
  | _ => false

/-- Events other than the two run-terminal ones. -/
def stepLevel : Event → Bool
  | .flow_complete _ => false
  | .flow_error _ _ => false
  | _ => true

/-- All `step_update` ids in a list of events lie in `ids`. -/
def eventIdsIn (l : List Event) (ids : List String) : Prop :=
  ∀ e ∈ l, ∀ sid, stepIdOf e = some sid → sid ∈ ids

/-- The step ids of the shared setup's first four phases (every step that
runs before the pool identifier is available). -/
def earlyIds : List String :=
  ["fund-wallets", "issuer-setup", "lender-trustline", "broker-trustline",
   "borrower-trustline", "batch-issuer-payments", "issuer-sends-usd-lender",
   "issuer-sends-usd-broker", "create-vault"]

/-- A successful terminal event of the vault-creation step. -/
def isVaultSuccessTerminal : Event → Bool
  | .step_update fs => fs.id == "create-vault" && fs.status == "success"
  | _ => false

theorem mem_mergeWith {α : Type _} (bs : List Bool) (xs ys : List α) (a : α) :
    a ∈ mergeWith bs xs ys ↔ a ∈ xs ∨ a ∈ ys := by
  induction bs generalizing xs ys with
  | nil => simp [mergeWith]
  | cons b bs ih =>
    cases xs with
    | nil => simp [mergeWith]
    | cons x xs =>
      cases ys with
      | nil => simp [mergeWith]
      | cons y ys =>
        cases b <;> simp [mergeWith, ih] <;> tauto

theorem sublist_mergeWith_left {α : Type _} (bs : List Bool) (xs ys : List α) :
    xs.Sublist (mergeWith bs xs ys) := by
  induction bs generalizing xs ys with
  | nil => simp only [mergeWith]; exact List.sublist_append_left xs ys
  | cons b bs ih =>
    cases xs with
    | nil => simp [mergeWith]
    | cons x xs =>
      cases ys with
      | nil => simp [mergeWith]
      | cons y ys =>
        cases b
        · exact (ih (x :: xs) ys).cons y
        · exact (ih xs (y :: ys)).cons₂ x

theorem sublist_mergeWith_right {α : Type _} (bs : List Bool) (xs ys : List α) :
    ys.Sublist (mergeWith bs xs ys) := by
  induction bs generalizing xs ys with
  | nil => simp only [mergeWith]; exact List.sublist_append_right xs ys
  | cons b bs ih =>
    cases xs with
    | nil => simp [mergeWith]
    | cons x xs =>
      cases ys with
      | nil => simp [mergeWith]
      | cons y ys =>
        cases b
        · exact (ih (x :: xs) ys).cons₂ y
        · exact (ih xs (y :: ys)).cons x

theorem mem_pre_of_append_eq {α : Type _} :
    ∀ (xs pre : List α) (ys post : List α) (e : α),
      xs ++ ys = pre ++ e :: post → e ∉ xs → ∀ a ∈ xs, a ∈ pre := by
  intro xs
  induction xs with
  | nil => intro pre ys post e _ _ a ha; cases ha
  | cons x xs ih =>
    intro pre ys post e h he a ha
    cases pre with
    | nil =>
      exfalso
      apply he
      have hx : x = e := by simpa using congrArg (List.head? ·) h
      simp [hx]
    | cons p pre =>
      have hx : x = p := by simpa using congrArg (List.head? ·) h
      have ht : xs ++ ys = pre ++ e :: post := by
        have := congrArg (List.tail ·) h
        simpa using this
      rcases List.mem_cons.mp ha with rfl | ha'
      · simp [hx]
      · exact List.mem_cons_of_mem _ (ih pre ys post e ht
          (fun hc => he (List.mem_cons_of_mem _ hc)) a ha')

theorem orElse_eq_none_iff (a b : Option String) :
    (a <|> b) = none ↔ a = none ∧ b = none := by
  cases a <;> simp

/-- Bool-level check that an event is step-level and its step id (if any)
lies in `ids`. -/
def evOk (ids : List String) (e : Event) : Bool :=
  stepLevel e &&
    (match stepIdOf e with
     | none => true
     | some s => ids.contains s)

theorem eventIdsIn_of_all {l : List Event} {ids : List String}
    (h : l.all (evOk ids) = true) : eventIdsIn l ids := by
  intro e he sid hs
  have := List.all_eq_true.mp h e he
  unfold evOk at this
  rw [hs] at this
  simp only [Bool.and_eq_true] at this
  simpa using this.2

theorem not_mem_of_idsIn {l : List Event} {ids : List String} {e : Event}
    {sid : String} (h : eventIdsIn l ids) (hs : stepIdOf e = some sid)
    (hn : sid ∉ ids) : e ∉ l := fun he => hn (h e he sid hs)

theorem all_append {α : Type _} (p : α → Bool) (xs ys : List α) :
    (xs ++ ys).all p = (xs.all p && ys.all p) := List.all_append

theorem all_mergeWith {α : Type _} (p : α → Bool) (bs : List Bool)
    (xs ys : List α) (hx : xs.all p = true) (hy : ys.all p = true) :
    (mergeWith bs xs ys).all p = true := by
  rw [List.all_eq_true] at hx hy ⊢
  intro a ha
  rcases (mem_mergeWith bs xs ys a).mp ha with h | h
  · exact hx a h
  · exact hy a h

theorem evOk_mono {ids ids' : List String} (hsub : ∀ s ∈ ids, s ∈ ids')
    {l : List Event} (h : l.all (evOk ids) = true) :
    l.all (evOk ids') = true := by
  rw [List.all_eq_true] at h ⊢
  intro e he
  have := h e he
  unfold evOk at this ⊢
  rcases hid : stepIdOf e with _ | s <;> rw [hid] at this <;>
    simp only [Bool.and_eq_true] at this ⊢
  · exact this
  · refine ⟨this.1, ?_⟩
    have hmem : s ∈ ids := by
      have h2 := this.2
      simpa [List.contains] using h2
    simpa [List.contains] using hsub s hmem

theorem evOk_issuerSetup (io : TxStepIO) (c : Ctx) :
    (step_issuerSetup io c).events.all (evOk ["issuer-setup"]) = true := by
  rcases io with ⟨h, o⟩
  rcases o with m | r
  · simp [step_issuerSetup, evOk, stepLevel, stepIdOf]
  · by_cases hok : txResultCode r.txResult = "tesSUCCESS" <;>
      simp [step_issuerSetup, evOk, stepLevel, stepIdOf, hok]

theorem evOk_lenderTrustline (io : TxStepIO) (c : Ctx) :
    (step_lenderTrustline io c).events.all (evOk ["lender-trustline"]) = true := by
  rcases io with ⟨h, o⟩
  rcases o with m | r
  · simp [step_lenderTrustline, evOk, stepLevel, stepIdOf]
  · by_cases hok : txResultCode r.txResult = "tesSUCCESS" <;>
      simp [step_lenderTrustline, evOk, stepLevel, stepIdOf, hok]

theorem evOk_issuerSendsUSDLender (io : TxStepIO) (c : Ctx) :
    (step_issuerSendsUSDLender io c).events.all (evOk ["issuer-sends-usd-lender"]) = true := by
  rcases io with ⟨h, o⟩
  rcases o with m | r
  · simp [step_issuerSendsUSDLender, evOk, stepLevel, stepIdOf]
  · by_cases hok : txResultCode r.txResult = "tesSUCCESS" <;>
      simp [step_issuerSendsUSDLender, evOk, stepLevel, stepIdOf, hok]

theorem evOk_brokerTrustline (io : TxStepIO) (c : Ctx) :
    (step_brokerTrustline io c).events.all (evOk ["broker-trustline"]) = true := by
  rcases io with ⟨h, o⟩
  rcases o with m | r
  · simp [step_brokerTrustline, evOk, stepLevel, stepIdOf]
  · by_cases hok : txResultCode r.txResult = "tesSUCCESS" <;>
      simp [step_brokerTrustline, evOk, stepLevel, stepIdOf, hok]

theorem evOk_issuerSendsUSDBroker (io : TxStepIO) (c : Ctx) :
    (step_issuerSendsUSDBroker io c).events.all (evOk ["issuer-sends-usd-broker"]) = true := by
  rcases io with ⟨h, o⟩
  rcases o with m | r
  · simp [step_issuerSendsUSDBroker, evOk, stepLevel, stepIdOf]
  · by_cases hok : txResultCode r.txResult = "tesSUCCESS" <;>
      simp [step_issuerSendsUSDBroker, evOk, stepLevel, stepIdOf, hok]

theorem evOk_createVault (io : TxStepIO) (c : Ctx) :
    (step_createVault io c).events.all (evOk ["create-vault"]) = true := by
  rcases io with ⟨h, o⟩
  rcases o with m | r
  · simp [step_createVault, evOk, stepLevel, stepIdOf]
  · by_cases hok : txResultCode r.txResult = "tesSUCCESS" <;>
      simp [step_createVault, evOk, stepLevel, stepIdOf, hok]

theorem evOk_createLoanBroker (io : TxStepIO) (c : Ctx) :
    (step_createLoanBroker io c).events.all (evOk ["create-loan-broker"]) = true := by
  rcases io with ⟨h, o⟩
  rcases o with m | r
  · simp [step_createLoanBroker, evOk, stepLevel, stepIdOf]
  · by_cases hok : txResultCode r.txResult = "tesSUCCESS" <;>
      simp [step_createLoanBroker, evOk, stepLevel, stepIdOf, hok]

theorem evOk_lenderDeposits (io : TxStepIO) (c : Ctx) :
    (step_lenderDeposits io c).events.all (evOk ["lender-deposits"]) = true := by
  rcases io with ⟨h, o⟩
  rcases o with m | r
  · simp [step_lenderDeposits, evOk, stepLevel, stepIdOf]
  · by_cases hok : txResultCode r.txResult = "tesSUCCESS" <;>
      simp [step_lenderDeposits, evOk, stepLevel, stepIdOf, hok]

theorem evOk_borrowerTrustline (io : TxStepIO) (c : Ctx) :
    (step_borrowerTrustline io c).events.all (evOk ["borrower-trustline"]) = true := by
  rcases io with ⟨h, o⟩
  rcases o with m | r
  · simp [step_borrowerTrustline, evOk, stepLevel, stepIdOf]
  · by_cases hok : txResultCode r.txResult = "tesSUCCESS" <;>
      simp [step_borrowerTrustline, evOk, stepLevel, stepIdOf, hok]

theorem evOk_brokerCoverDeposit (io : TxStepIO) (c : Ctx) :
    (step_brokerCoverDeposit io c).events.all (evOk ["broker-cover-deposit"]) = true := by
  rcases io with ⟨h, o⟩
  rcases o with m | r
  · simp [step_brokerCoverDeposit, evOk, stepLevel, stepIdOf]
  · by_cases hok : txResultCode r.txResult = "tesSUCCESS" <;>
      simp [step_brokerCoverDeposit, evOk, stepLevel, stepIdOf, hok]

theorem evOk_signerListSet (io : TxStepIO) (c : Ctx) :
    (step_signerListSet io c).events.all (evOk ["signerlist-set"]) = true := by
  rcases io with ⟨h, o⟩
  rcases o with m | r
  · simp [step_signerListSet, evOk, stepLevel, stepIdOf]
  · by_cases hok : txResultCode r.txResult = "tesSUCCESS" <;>
      simp [step_signerListSet, evOk, stepLevel, stepIdOf, hok]

theorem evOk_fundBorrowerForRepayment (io : TxStepIO) (c : Ctx) :
    (step_fundBorrowerForRepayment io c).events.all (evOk ["fund-borrower-repayment"]) = true := by
  rcases io with ⟨h, o⟩
  rcases o with m | r
  · simp [step_fundBorrowerForRepayment, evOk, stepLevel, stepIdOf]
  · by_cases hok : txResultCode r.txResult = "tesSUCCESS" <;>
      simp [step_fundBorrowerForRepayment, evOk, stepLevel, stepIdOf, hok]

theorem evOk_loanManageDefault (io : TxStepIO) (c : Ctx) :
    (step_loanManageDefault io c).events.all (evOk ["loan-manage-default"]) = true := by
  rcases io with ⟨h, o⟩
  rcases o with m | r
  · simp [step_loanManageDefault, evOk, stepLevel, stepIdOf]
  · by_cases hok : txResultCode r.txResult = "tesSUCCESS" <;>
      simp [step_loanManageDefault, evOk, stepLevel, stepIdOf, hok]

theorem evOk_loanDelete (io : TxStepIO) (c : Ctx) :
    (step_loanDelete io c).events.all (evOk ["loan-delete"]) = true := by
  rcases io with ⟨h, o⟩
  rcases o with m | r
  · simp [step_loanDelete, evOk, stepLevel, stepIdOf]
  · by_cases hok : txResultCode r.txResult = "tesSUCCESS" <;>
      simp [step_loanDelete, evOk, stepLevel, stepIdOf, hok]

theorem evOk_loanBrokerDelete (io : TxStepIO) (c : Ctx) :
    (step_loanBrokerDelete io c).events.all (evOk ["loan-broker-delete"]) = true := by
  rcases io with ⟨h, o⟩
  rcases o with m | r
  · simp [step_loanBrokerDelete, evOk, stepLevel, stepIdOf]
  · by_cases hok : txResultCode r.txResult = "tesSUCCESS" <;>
      simp [step_loanBrokerDelete, evOk, stepLevel, stepIdOf, hok]

theorem evOk_vaultDelete (io : TxStepIO) (c : Ctx) :
    (step_vaultDelete io c).events.all (evOk ["vault-delete"]) = true := by
  rcases io with ⟨h, o⟩
  rcases o with m | r
  · simp [step_vaultDelete, evOk, stepLevel, stepIdOf]
  · by_cases hok : txResultCode r.txResult = "tesSUCCESS" <;>
      simp [step_vaultDelete, evOk, stepLevel, stepIdOf, hok]

theorem evOk_fundWallets (o : FundOutcome) (c : Ctx) :
    (step_fundWallets o c).events.all (evOk ["fund-wallets"]) = true := by
  rcases o with m | ⟨i, l, b, k⟩ <;>
    simp [step_fundWallets, evOk, stepLevel, stepIdOf]

theorem evOk_batchIssuerPayments (o : SubmitOutcome) (c : Ctx) :
    (step_batchIssuerPayments o c).events.all
      (evOk ["batch-issuer-payments"]) = true := by
  rcases o with m | r
  · simp [step_batchIssuerPayments, evOk, stepLevel, stepIdOf]
  · by_cases hok : txResultCode r.txResult = "tesSUCCESS" <;>
      simp [step_batchIssuerPayments, evOk, stepLevel, stepIdOf, hok]

theorem evOk_loanSet (io : LoanSetIO) (c : Ctx) :
    (step_loanSet io c).events.all (evOk ["loan-set-countersign"]) = true := by
  rcases io with ⟨vq, bq, fee, sh, ch, o⟩
  rcases o with m | r
  · simp [step_loanSet, evOk, stepLevel, stepIdOf]
  · by_cases hok : txResultCode r.txResult = "tesSUCCESS" <;>
      simp [step_loanSet, evOk, stepLevel, stepIdOf, hok]

theorem evOk_loanSetMultiSig (io : LoanSetMsIO) (c : Ctx) :
    (step_loanSetMultiSig io c).events.all
      (evOk ["loan-set-multisig"]) = true := by
  rcases io with ⟨vq, bq, fee, o⟩
  rcases o with m | r
  · simp [step_loanSetMultiSig, evOk, stepLevel, stepIdOf]
  · by_cases hok : txResultCode r.txResult = "tesSUCCESS" <;>
      simp [step_loanSetMultiSig, evOk, stepLevel, stepIdOf, hok]

theorem evOk_loanPay (isEarly : Bool) (io : LoanPayIO) (c : Ctx) :
    (step_loanPay isEarly io c).events.all
      (evOk ["loan-pay", "loan-pay-early"]) = true := by
  rcases io with ⟨q, h, o⟩
  rcases o with m | r <;> cases isEarly
  · simp [step_loanPay, evOk, stepLevel, stepIdOf]
  · simp [step_loanPay, evOk, stepLevel, stepIdOf]
  · by_cases hok : txResultCode r.txResult = "tesSUCCESS" <;>
      simp [step_loanPay, evOk, stepLevel, stepIdOf, hok]
  · by_cases hok : txResultCode r.txResult = "tesSUCCESS" <;>
      simp [step_loanPay, evOk, stepLevel, stepIdOf, hok]

theorem evOk_brokerCoverWithdraw (io : QStepIO) (c : Ctx) :
    (step_brokerCoverWithdraw io c).events.all
      (evOk ["broker-cover-withdraw"]) = true := by
  rcases io with ⟨q, h, o⟩
  rcases o with m | r
  · simp [step_brokerCoverWithdraw, evOk, stepLevel, stepIdOf]
  · by_cases hok : txResultCode r.txResult = "tesSUCCESS" <;>
      simp [step_brokerCoverWithdraw, evOk, stepLevel, stepIdOf, hok]

theorem evOk_vaultWithdraw (io : QStepIO) (c : Ctx) :
    (step_vaultWithdraw io c).events.all (evOk ["vault-withdraw"]) = true := by
  rcases io with ⟨q, h, o⟩
  rcases o with m | r
  · simp [step_vaultWithdraw, evOk, stepLevel, stepIdOf]
  · by_cases hok : txResultCode r.txResult = "tesSUCCESS" <;>
      simp [step_vaultWithdraw, evOk, stepLevel, stepIdOf, hok]

theorem evOk_verifyStates (v : VerifyOutcome) (c : Ctx) :
    (step_verifyStates v c).events.all (evOk ["verify-states"]) = true := by
  simp [step_verifyStates, evOk, stepLevel, stepIdOf]

theorem seqRun_err_some {a : StepRun} {f : Ctx → StepRun} {e : String}
    (h : a.err = some e) : seqRun a f = a := by
  simp [seqRun, h]

theorem seqRun_ok {a : StepRun} (f : Ctx → StepRun) (h : a.err = none) :
    seqRun a f = ⟨a.events ++ (f a.ctx).events, a.report ++ (f a.ctx).report,
      (f a.ctx).ctx, (f a.ctx).err, a.submitted ++ (f a.ctx).submitted⟩ := by
  simp [seqRun, h]

theorem all_seqRun (p : Event → Bool) (a : StepRun) (f : Ctx → StepRun)
    (ha : a.events.all p = true) (hf : ∀ c, ((f c).events.all p) = true) :
    (seqRun a f).events.all p = true := by
  rcases h : a.err with - | e
  · rw [seqRun_ok f h]
    simp only [List.all_append, ha, hf, Bool.and_self]
  · rw [seqRun_err_some h]; exact ha

theorem evOk_subset_early_fund : ∀ x ∈ ["fund-wallets"], x ∈ earlyIds := by
  decide

theorem evOk_phase3 (o : Oracle) (s : Sched) (c : Ctx) :
    (phase3 o s c).events.all (evOk earlyIds) = true := by
  unfold phase3
  apply all_mergeWith
  · exact evOk_mono (by decide) (evOk_lenderTrustline _ _)
  · apply all_mergeWith
    · exact evOk_mono (by decide) (evOk_brokerTrustline _ _)
    · exact evOk_mono (by decide) (evOk_borrowerTrustline _ _)

theorem evOk_paymentsWithFallback (o : Oracle) (c : Ctx) :
    (paymentsWithFallback o c).events.all (evOk earlyIds) = true := by
  unfold paymentsWithFallback
  rcases h : (step_batchIssuerPayments o.batchPayments c).err with - | e <;>
    simp only [h]
  · exact evOk_mono (by decide) (evOk_batchIssuerPayments _ _)
  · simp only [List.all_append, Bool.and_eq_true]
    constructor
    · exact evOk_mono (by decide) (evOk_batchIssuerPayments _ _)
    · apply all_seqRun
      · exact evOk_mono (by decide) (evOk_issuerSendsUSDLender _ _)
      · intro c2
        exact evOk_mono (by decide) (evOk_issuerSendsUSDBroker _ _)

theorem evOk_phase4 (o : Oracle) (s : Sched) (c : Ctx) :
    (phase4 o s c).events.all (evOk earlyIds) = true := by
  unfold phase4
  apply all_mergeWith
  · exact evOk_mono (by decide) (evOk_createVault _ _)
  · exact evOk_paymentsWithFallback o c

theorem vault_success_of_err_none (io : TxStepIO) (c : Ctx)
    (h : (step_createVault io c).err = none) :
    ∃ e ∈ (step_createVault io c).events, isVaultSuccessTerminal e = true := by
  rcases io with ⟨sh, o⟩
  rcases o with m | r
  · simp [step_createVault] at h
  · by_cases hok : txResultCode r.txResult = "tesSUCCESS"
    · simp [step_createVault, hok, isVaultSuccessTerminal]
    · simp [step_createVault, hok] at h

theorem phase4_err_none_vault (o : Oracle) (s : Sched) (c : Ctx)
    (h : (phase4 o s c).err = none) :
    ∃ e ∈ (phase4 o s c).events, isVaultSuccessTerminal e = true := by
  unfold phase4 at h ⊢
  simp only at h
  have hv : (step_createVault o.createVault c).err = none :=
    ((orElse_eq_none_iff _ _).mp h).2
  obtain ⟨e, he, hvt⟩ := vault_success_of_err_none o.createVault c hv
  refine ⟨e, ?_, hvt⟩
  simp only
  exact (mem_mergeWith _ _ _ e).mpr (Or.inl he)

theorem seqRun_events_ok {a : StepRun} (f : Ctx → StepRun) (h : a.err = none) :
    (seqRun a f).events = a.events ++ (f a.ctx).events := by
  rw [seqRun_ok f h]

theorem seqRun_err_ok {a : StepRun} (f : Ctx → StepRun) (h : a.err = none) :
    (seqRun a f).err = (f a.ctx).err := by
  rw [seqRun_ok f h]

theorem shared_decomp (o : Oracle) (s : Sched) (c : Ctx) :
    ∃ A B, (runSharedSetup o s c).events = A ++ B ∧
      A.all (evOk earlyIds) = true ∧
      (B ≠ [] → ∃ e ∈ A, isVaultSuccessTerminal e = true) ∧
      ((runSharedSetup o s c).err = none →
        ∃ e ∈ A, isVaultSuccessTerminal e = true) := by
  unfold runSharedSetup
  set F := step_fundWallets o.fund c with hF
  rcases h1 : F.err with - | e1 <;> simp only [seqRun, h1]
  case some =>
    exact ⟨F.events, [], (List.append_nil _).symm,
      evOk_mono (by decide) (evOk_fundWallets _ _), by simp, by simp⟩
  case none =>
    set S2 := step_issuerSetup o.issuerSetup F.ctx with hS2
    rcases h2 : S2.err with - | e2 <;> simp only [h2]
    case some =>
      refine ⟨F.events ++ S2.events, [], (List.append_nil _).symm, ?_,
        by simp, by simp⟩
      simp only [List.all_append, Bool.and_eq_true]
      exact ⟨evOk_mono (by decide) (evOk_fundWallets _ _),
        evOk_mono (by decide) (evOk_issuerSetup _ _)⟩
    case none =>
      set P3 := phase3 o s S2.ctx with hP3
      rcases h3 : P3.err with - | e3 <;> simp only [h3]
      case some =>
        refine ⟨F.events ++ (S2.events ++ P3.events), [],
          (List.append_nil _).symm, ?_, by simp, by simp⟩
        simp only [List.all_append, Bool.and_eq_true]
        exact ⟨evOk_mono (by decide) (evOk_fundWallets _ _),
          evOk_mono (by decide) (evOk_issuerSetup _ _),
          evOk_phase3 o s S2.ctx⟩
      case none =>
        set P4 := phase4 o s P3.ctx with hP4
        rcases h4 : P4.err with - | e4 <;> simp only [h4]
        case some =>
          refine ⟨F.events ++ (S2.events ++ (P3.events ++ P4.events)), [],
            (List.append_nil _).symm, ?_, by simp, by simp⟩
          simp only [List.all_append, Bool.and_eq_true]
          exact ⟨evOk_mono (by decide) (evOk_fundWallets _ _),
            evOk_mono (by decide) (evOk_issuerSetup _ _),
            evOk_phase3 o s S2.ctx, evOk_phase4 o s P3.ctx⟩
        case none =>
          obtain ⟨ev, hev, hvt⟩ := phase4_err_none_vault o s P3.ctx (by rw [← hP4]; exact h4)
          have hevA : ev ∈ F.events ++ (S2.events ++ (P3.events ++ P4.events)) := by
            refine List.mem_append_right _ (List.mem_append_right _
              (List.mem_append_right _ ?_))
            rw [hP4]; exact hev
          have hallA : (F.events ++ (S2.events ++ (P3.events ++ P4.events))).all
              (evOk earlyIds) = true := by
            simp only [List.all_append, Bool.and_eq_true]
            exact ⟨evOk_mono (by decide) (evOk_fundWallets _ _),
              evOk_mono (by decide) (evOk_issuerSetup _ _),
              evOk_phase3 o s S2.ctx, evOk_phase4 o s P3.ctx⟩
          set P5 := phase5 o s P4.ctx with hP5
          rcases h5 : P5.err with - | e5 <;> simp only [h5]
          case some =>
            exact ⟨F.events ++ (S2.events ++ (P3.events ++ P4.events)),
              P5.events, by simp [List.append_assoc], hallA,
              fun _ => ⟨ev, hevA, hvt⟩, fun _ => ⟨ev, hevA, hvt⟩⟩
          case none =>
            exact ⟨F.events ++ (S2.events ++ (P3.events ++ P4.events)),
              P5.events ++ (step_brokerCoverDeposit o.brokerCoverDeposit
                P5.ctx).events,
              by simp [List.append_assoc], hallA,
              fun _ => ⟨ev, hevA, hvt⟩, fun _ => ⟨ev, hevA, hvt⟩⟩

/-- C5: in every run (all scenarios, all network oracles, all
interleavings of the parallel phases), no step other than those of the
shared setup's first four phases — in particular neither loan-broker
creation, nor the lender vault deposit, nor any later step, all of which
read the pool (vault) identifier from the session context — has any
`step_update` event emitted before the vault-creation step's successful
terminal event has fired. -/
theorem C5_no_pool_reader_before_vault_terminal
    (o : Oracle) (s : Sched) (sc : ScenarioId)
    (pre post : List Event) (e : Event) (sid : String)
    (hsplit : (runLendingFlow o s sc).events = pre ++ e :: post)
    (hid : stepIdOf e = some sid) (hearly : sid ∉ earlyIds) :
    ∃ e' ∈ pre, isVaultSuccessTerminal e' = true := by
  obtain ⟨A, B, hAB, hAall, hBne, hAerr⟩ := shared_decomp o s {}
  have hAin : eventIdsIn A earlyIds := eventIdsIn_of_all hAall
  set x : Event :=
    .state_update (.scenario sc.str (getScenarioStepCount sc)) with hx
  have heA : e ∉ x :: A := by
    intro hmem
    rcases List.mem_cons.mp hmem with hh | hh
    · rw [hh] at hid; simp [hx, stepIdOf] at hid
    · exact hearly (hAin e hh sid hid)
  have heRHS : e ∈ pre ++ e :: post :=
    List.mem_append_right _ (List.mem_cons_self _ _)
  rcases hc : o.connect with - | ec
  case some =>
    simp only [runLendingFlow, hc, List.singleton_append] at hsplit
    rw [← hsplit] at heRHS
    rcases List.mem_cons.mp heRHS with hh | hh
    · rw [hh] at hid; simp [stepIdOf] at hid
    · simp only [List.mem_singleton] at hh
      rw [hh] at hid; simp [stepIdOf] at hid
  case none =>
    simp only [runLendingFlow, hc, List.singleton_append] at hsplit
    rcases hbe : (flowBody o s sc).err with - | eb <;>
      simp only [hbe] at hsplit
    case none =>
      rcases hse : (runSharedSetup o s ({} : Ctx)).err with - | es
      case none =>
        have hbodyev : (flowBody o s sc).events =
            (runSharedSetup o s ({} : Ctx)).events ++
              (scenarioTail sc o (runSharedSetup o s ({} : Ctx)).ctx).events := by
          unfold flowBody; exact seqRun_events_ok _ hse
        rw [hbodyev, hAB] at hsplit
        simp only [List.append_assoc] at hsplit
        rw [← List.cons_append, List.append_assoc] at hsplit
        have hpre := mem_pre_of_append_eq (x :: A) pre _ post e hsplit heA
        obtain ⟨ev, hev, hvt⟩ := hAerr hse
        exact ⟨ev, hpre ev (List.mem_cons_of_mem _ hev), hvt⟩
      case some =>
        have hb : flowBody o s sc = runSharedSetup o s ({} : Ctx) := by
          unfold flowBody; exact seqRun_err_some hse
        rw [hb] at hbe
        rw [hse] at hbe
        cases hbe
    case some =>
      rcases hse : (runSharedSetup o s ({} : Ctx)).err with - | es
      case none =>
        have hbodyev : (flowBody o s sc).events =
            (runSharedSetup o s ({} : Ctx)).events ++
              (scenarioTail sc o (runSharedSetup o s ({} : Ctx)).ctx).events := by
          unfold flowBody; exact seqRun_events_ok _ hse
        rw [hbodyev, hAB] at hsplit
        simp only [List.append_assoc] at hsplit
        rw [← List.cons_append, List.append_assoc] at hsplit
        have hpre := mem_pre_of_append_eq (x :: A) pre _ post e hsplit heA
        obtain ⟨ev, hev, hvt⟩ := hAerr hse
        exact ⟨ev, hpre ev (List.mem_cons_of_mem _ hev), hvt⟩
      case some =>
        have hb : flowBody o s sc = runSharedSetup o s ({} : Ctx) := by
          unfold flowBody; exact seqRun_err_some hse
        rw [hb] at hsplit
        rw [hAB] at hsplit
        cases B with
        | nil =>
          simp only [List.append_nil] at hsplit
          rw [← hsplit] at heRHS
          rcases List.mem_cons.mp heRHS with hh | hh
          · rw [hh] at hid; simp [hx, stepIdOf] at hid
          · rcases List.mem_append.mp hh with hh2 | hh2
            · exact absurd (hAin e hh2 sid hid) hearly
            · simp only [List.mem_singleton] at hh2
              rw [hh2] at hid; simp [stepIdOf] at hid
        | cons b bs =>
          simp only [List.append_assoc] at hsplit
          rw [← List.cons_append, List.append_assoc] at hsplit
          have hpre := mem_pre_of_append_eq (x :: A) pre _ post e hsplit heA
          obtain ⟨ev, hev, hvt⟩ := hBne (by simp)
          exact ⟨ev, hpre ev (List.mem_cons_of_mem _ hev), hvt⟩


/-- A concrete all-success network oracle (hashes, ids and dumps are
arbitrary literals). -/
def okR : SubmitResponse := ⟨some "tesSUCCESS", "HASH", []⟩

/-- A concrete all-success plain-step interaction. -/
def okTx : TxStepIO := ⟨"SH", .response okR⟩

/-- Responses creating a Vault / LoanBroker / Loan object. -/
def vaultR : SubmitResponse :=
  ⟨some "tesSUCCESS", "HV", [⟨some ⟨"Vault", "VAULTID"⟩⟩]⟩

def brokerR : SubmitResponse :=
  ⟨some "tesSUCCESS", "HB", [⟨some ⟨"LoanBroker", "LBID"⟩⟩]⟩

def loanR : SubmitResponse :=
  ⟨some "tesSUCCESS", "HL", [⟨some ⟨"Loan", "LOANID"⟩⟩]⟩

/-- An all-success run oracle whose final-verification queries all fail. -/
def okOracle : Oracle :=
  { connect := none,
    fund := .ok ⟨"rIssuer", "sI"⟩ ⟨"rLender", "sL"⟩ ⟨"rBorrower", "sB"⟩
      ⟨"rBroker", "sK"⟩,
    issuerSetup := okTx, lenderTrustline := okTx, brokerTrustline := okTx,
    borrowerTrustline := okTx,
    batchPayments := .response okR,
    sendUSDLender := okTx, sendUSDBroker := okTx,
    createVault := ⟨"SHV", .response vaultR⟩,
    createLoanBroker := ⟨"SHB", .response brokerR⟩,
    lenderDeposits := okTx, brokerCoverDeposit := okTx,
    signerListSet := okTx,
    loanSet := ⟨.qok "VDUMP", .qok "BDUMP", some 12, "SH1", "SH2",
      .response loanR⟩,
    loanSetMs := ⟨.qok "VDUMP", .qok "BDUMP", some 12, .response loanR⟩,
    fundBorrower := okTx,
    loanPay := ⟨.qok none, "SHP", .response okR⟩,
    loanPayEarly := ⟨.qok (some ("1000", 1000)), "SHQ", .response okR⟩,
    loanManageDefault := okTx, loanDelete := okTx,
    coverWithdraw := ⟨some (some "500"), "SHW", .response okR⟩,
    loanBrokerDelete := okTx,
    vaultWithdraw := ⟨some (some "5000"), "SHX", .response okR⟩,
    vaultDelete := okTx,
    verify := ⟨none, none, none, none, none, none, none, none, none, none,
      none⟩,
    startedIso := "T0", completedIso := "T1", failedIso := "T2" }

set_option maxRecDepth 100000 in
/-- Witness for C5: in the all-success loan-creation run under the empty
schedule, the loan-broker creation step's "running" event sits at
position 22 and a successful vault terminal event precedes it. -/
theorem C5_witness :
    ∃ e' ∈ (runLendingFlow okOracle {} .loanCreation).events.take 22,
      isVaultSuccessTerminal e' = true := by
  exact C5_no_pool_reader_before_vault_terminal okOracle {} .loanCreation
    ((runLendingFlow okOracle {} .loanCreation).events.take 22)
    ((runLendingFlow okOracle {} .loanCreation).events.drop 23)
    (.step_update ⟨"create-loan-broker", "Broker Creates LoanBroker",
      "Broker creates the LoanBroker entry (XLS-66 LoanBrokerSet)",
      "running", none, some "LoanBrokerSet", none, none⟩)
    "create-loan-broker" rfl rfl (by decide)

/-- Terminal step-event count a step emits per submit outcome: one when
the SDK threw or on success, two on a non-success result code (the
detailed failed event, then the catch handler's). -/
def expectedTerminalCount : SubmitOutcome → Nat
  | .thrown _ => 1
  | .response r => if txResultCode r.txResult = "tesSUCCESS" then 1 else 2

/-- Counterexample for C1: on a non-success result code, the issuer-setup
step emits its detailed "error" event, throws, and its own catch emits a
second "error" event before rethrowing — two terminal events, not one. -/
theorem C1_counterexample :
    countP (isTerminalOf "issuer-setup")
        (step_issuerSetup ⟨"H", .response ⟨some "tecDIR_FULL", "H2", []⟩⟩
          {}).events = 2 ∧
      ¬ countP (isTerminalOf "issuer-setup")
          (step_issuerSetup ⟨"H", .response ⟨some "tecDIR_FULL", "H2", []⟩⟩
            {}).events = 1 := by
  constructor <;> decide

/-- C1 (amended): every step run emits exactly one "running" event and it
is the first event emitted; the step emits exactly one terminal
("success"/"error") event when the SDK threw or when the result code is
"tesSUCCESS", and exactly two terminal events when the network returned a
non-success result code (stated for `step_issuerSetup` and
`step_loanSet`, the steps the claim cites). -/
theorem C1_amended_running_and_terminal_counts (io : TxStepIO)
    (ls : LoanSetIO) (c1 c2 : Ctx) :
    (countP (isRunningOf "issuer-setup") (step_issuerSetup io c1).events = 1
      ∧ (∃ fs, (step_issuerSetup io c1).events.head? =
            some (.step_update fs) ∧ fs.id = "issuer-setup" ∧
            fs.status = "running")
      ∧ countP (isTerminalOf "issuer-setup") (step_issuerSetup io c1).events
          = expectedTerminalCount io.outcome)
    ∧ (countP (isRunningOf "loan-set-countersign")
          (step_loanSet ls c2).events = 1
      ∧ (∃ fs, (step_loanSet ls c2).events.head? =
            some (.step_update fs) ∧ fs.id = "loan-set-countersign" ∧
            fs.status = "running")
      ∧ countP (isTerminalOf "loan-set-countersign")
          (step_loanSet ls c2).events = expectedTerminalCount ls.outcome) := by
  have hrun1 : ∀ fs : FlowStep, fs = ⟨"issuer-setup",
      "Enable Issuer Settings",
      "Setting DefaultRipple on Issuer account for IOU issuance", "running",
      none, some "AccountSet", none, none⟩ →
      fs.id = "issuer-setup" ∧ fs.status = "running" := by
    rintro fs rfl; exact ⟨rfl, rfl⟩
  have hrun2 : ∀ fs : FlowStep, fs = ⟨"loan-set-countersign",
      "Create Loan with CounterpartySignature",
      "Broker creates LoanSet; Borrower co-signs via CounterpartySignature field",
      "running", none, some "LoanSet", none, none⟩ →
      fs.id = "loan-set-countersign" ∧ fs.status = "running" := by
    rintro fs rfl; exact ⟨rfl, rfl⟩
  constructor
  · rcases io with ⟨h, o⟩
    rcases o with m | r
    · refine ⟨?_, ⟨_, ?_, (hrun1 _ rfl).1, (hrun1 _ rfl).2⟩, ?_⟩ <;>
        simp [step_issuerSetup, countP, isRunningOf, isTerminalOf,
          expectedTerminalCount]
    · by_cases hok : txResultCode r.txResult = "tesSUCCESS" <;>
        refine ⟨?_, ⟨_, ?_, (hrun1 _ rfl).1, (hrun1 _ rfl).2⟩, ?_⟩ <;>
        simp [step_issuerSetup, countP, isRunningOf, isTerminalOf,
          expectedTerminalCount, hok]
  · rcases ls with ⟨vq, bq, fee, sh, ch, o⟩
    rcases o with m | r
    · refine ⟨?_, ⟨_, ?_, (hrun2 _ rfl).1, (hrun2 _ rfl).2⟩, ?_⟩ <;>
        simp [step_loanSet, countP, isRunningOf, isTerminalOf,
          expectedTerminalCount]
    · by_cases hok : txResultCode r.txResult = "tesSUCCESS" <;>
        refine ⟨?_, ⟨_, ?_, (hrun2 _ rfl).1, (hrun2 _ rfl).2⟩, ?_⟩ <;>
        simp [step_loanSet, countP, isRunningOf, isTerminalOf,
          expectedTerminalCount, hok]

/-- C2: for the cited step functions, on a validated response the
classified terminal status is "success" exactly when the extracted result
code equals "tesSUCCESS" (a missing code reads "unknown"); any other code
yields zero success events, the two failure events, and a raised error
that aborts the rest of the run. -/
theorem C2_success_iff_tesSUCCESS (c1 c2 : Ctx) (h : String)
    (vq bq : QueryOutcome) (fee : Option Nat) (sh ch : String)
    (r : SubmitResponse) :
    (countP (isSuccessOf "issuer-setup")
        (step_issuerSetup ⟨h, .response r⟩ c1).events
        = if txResultCode r.txResult = "tesSUCCESS" then 1 else 0)
    ∧ (countP (isErrorOf "issuer-setup")
        (step_issuerSetup ⟨h, .response r⟩ c1).events
        = if txResultCode r.txResult = "tesSUCCESS" then 0 else 2)
    ∧ ((step_issuerSetup ⟨h, .response r⟩ c1).err = none ↔
        txResultCode r.txResult = "tesSUCCESS")
    ∧ (countP (isSuccessOf "loan-set-countersign")
        (step_loanSet ⟨vq, bq, fee, sh, ch, .response r⟩ c2).events
        = if txResultCode r.txResult = "tesSUCCESS" then 1 else 0)
    ∧ (countP (isErrorOf "loan-set-countersign")
        (step_loanSet ⟨vq, bq, fee, sh, ch, .response r⟩ c2).events
        = if txResultCode r.txResult = "tesSUCCESS" then 0 else 2)
    ∧ ((step_loanSet ⟨vq, bq, fee, sh, ch, .response r⟩ c2).err = none ↔
        txResultCode r.txResult = "tesSUCCESS")
    ∧ txResultCode none = "unknown" := by
  by_cases hok : txResultCode r.txResult = "tesSUCCESS" <;>
    refine ⟨?_, ?_, ?_, ?_, ?_, ?_, rfl⟩ <;>
    simp [step_issuerSetup, step_loanSet, countP, isSuccessOf, isErrorOf,
      hok]

/-- C4: each creating step stores in the session context exactly the
`LedgerIndex` of the first affected node whose `CreatedNode` has the
expected ledger-entry type — `""` when no such node exists; and the scan
`firstCreatedId` is characterised by: it returns `""` when no node
matches, and the `LedgerIndex` of the first matching node otherwise. -/
theorem C4_created_id_extraction :
    (∀ (h : String) (r : SubmitResponse) (c : Ctx),
        (step_createVault ⟨h, .response r⟩ c).ctx.vaultId =
          some (firstCreatedId r.affectedNodes "Vault")
      ∧ (step_createLoanBroker ⟨h, .response r⟩ c).ctx.loanBrokerId =
          some (firstCreatedId r.affectedNodes "LoanBroker"))
    ∧ (∀ (vq bq : QueryOutcome) (fee : Option Nat) (sh ch : String)
        (r : SubmitResponse) (c : Ctx),
        (step_loanSet ⟨vq, bq, fee, sh, ch, .response r⟩ c).ctx.loanId =
          some (firstCreatedId r.affectedNodes "Loan"))
    ∧ (∀ (nodes : List AffectedNode) (ty : String),
        (∀ n ∈ nodes, ∀ cn, n.created = some cn → cn.ledgerEntryType ≠ ty) →
        firstCreatedId nodes ty = "")
    ∧ (∀ (pre post : List AffectedNode) (n : AffectedNode)
        (cn : CreatedNode) (ty : String),
        n.created = some cn → cn.ledgerEntryType = ty →
        (∀ m ∈ pre, ∀ cm, m.created = some cm → cm.ledgerEntryType ≠ ty) →
        firstCreatedId (pre ++ n :: post) ty = cn.ledgerIndex) := by
  refine ⟨?_, ?_, ?_, ?_⟩
  · intro h r c
    constructor <;>
      by_cases hok : txResultCode r.txResult = "tesSUCCESS" <;>
      simp [step_createVault, step_createLoanBroker, hok]
  · intro vq bq fee sh ch r c
    by_cases hok : txResultCode r.txResult = "tesSUCCESS" <;>
      simp [step_loanSet, hok]
  · intro nodes ty hnone
    induction nodes with
    | nil => rfl
    | cons n rest ih =>
      rcases hc : n.created with - | cn
      · simp only [firstCreatedId, hc]
        exact ih fun m hm => hnone m (List.mem_cons_of_mem _ hm)
      · have hne := hnone n (List.mem_cons_self _ _) cn hc
        simp only [firstCreatedId, hc, if_neg hne]
        exact ih fun m hm => hnone m (List.mem_cons_of_mem _ hm)
  · intro pre post n cn ty hcn hty hpre
    induction pre with
    | nil => simp [firstCreatedId, hcn, hty]
    | cons m rest ih =>
      rcases hm : m.created with - | cm
      · simp only [List.cons_append, firstCreatedId, hm]
        exact ih fun m2 hm2 => hpre m2 (List.mem_cons_of_mem _ hm2)
      · have hne := hpre m (List.mem_cons_self _ _) cm hm
        simp only [List.cons_append, firstCreatedId, hm, if_neg hne]
        exact ih fun m2 hm2 => hpre m2 (List.mem_cons_of_mem _ hm2)

/-- Witness for C4: the extraction evaluated at concrete metadata — a
vault-creating response stores the created id; an unmatched list yields
`""`; with two matching nodes the first wins. -/
theorem C4_witness :
    (step_createVault ⟨"H", .response vaultR⟩ {}).ctx.vaultId =
        some "VAULTID"
    ∧ firstCreatedId [⟨some ⟨"Loan", "X"⟩⟩] "Vault" = ""
    ∧ firstCreatedId
        [⟨none⟩, ⟨some ⟨"Vault", "V1"⟩⟩, ⟨some ⟨"Vault", "V2"⟩⟩]
        "Vault" = "V1" := by
  refine ⟨?_, ?_, ?_⟩
  · have h := (C4_created_id_extraction.1 "H" vaultR {}).1
    simpa [vaultR, firstCreatedId] using h
  · apply C4_created_id_extraction.2.2.1
    intro n hn cn hcn
    simp only [List.mem_singleton] at hn
    subst hn
    simp only at hcn
    cases hcn
    decide
  · have h := C4_created_id_extraction.2.2.2 [⟨none⟩]
      [⟨some ⟨"Vault", "V2"⟩⟩] ⟨some ⟨"Vault", "V1"⟩⟩ ⟨"Vault", "V1"⟩
      "Vault" rfl rfl ?_
    · simpa using h
    · intro m hm cm hcm
      simp only [List.mem_singleton] at hm
      subst hm
      simp at hcm

/-- C6: in the early-repayment payment step, when the loan-state query
succeeds with a non-negative outstanding principal `x`, the chosen amount
`⌈x * 1.1⌉` is at least `x`; when the query throws, the fixed fallback
1100 is used, the report records it, and the step still submits the
payment (its outcome is decided by the submit result alone, not aborted
by the query failure). -/
theorem C6_early_repayment_amount (st : String) (x : ℚ)
    (msg h2 : String) (r : SubmitResponse) (c : Ctx) (hx : 0 ≤ x) :
    x ≤ ((loanPayAmount true (.qok (some (st, x))) : ℤ) : ℚ)
    ∧ loanPayAmount true (.qfail msg) = 1100
    ∧ ("Could not query loan state: " ++ msg
        ++ ". Using estimated amount: 1100")
        ∈ (step_loanPay true ⟨.qfail msg, h2, .response r⟩ c).report
    ∧ ("Amount:   " ++ toString (loanPayAmount true (.qfail msg)) ++ " USD")
        ∈ (step_loanPay true ⟨.qfail msg, h2, .response r⟩ c).report
    ∧ ((step_loanPay true ⟨.qfail msg, h2, .response r⟩ c).err = none ↔
        txResultCode r.txResult = "tesSUCCESS") := by
  refine ⟨?_, rfl, ?_, ?_, ?_⟩
  · show x ≤ ((⌈x * (11 / 10 : ℚ)⌉ : ℤ) : ℚ)
    have h1 : (x * (11 / 10 : ℚ)) ≤ ((⌈x * (11 / 10 : ℚ)⌉ : ℤ) : ℚ) :=
      Int.le_ceil _
    nlinarith
  · by_cases hok : txResultCode r.txResult = "tesSUCCESS" <;>
      simp [step_loanPay, loanPayQueryLines, hok]
  · by_cases hok : txResultCode r.txResult = "tesSUCCESS" <;>
      simp [step_loanPay, loanPayQueryLines, hok]
  · by_cases hok : txResultCode r.txResult = "tesSUCCESS" <;>
      simp [step_loanPay, hok]

/-- Witness for C6 at outstanding principal 1000 with a failing submit
oracle replaced by a successful one. -/
theorem C6_witness :
    (0 : ℚ) ≤ 1000 ∧
    ((1000 : ℚ) ≤ ((loanPayAmount true (.qok (some ("1000", 1000))) : ℤ) : ℚ)
      ∧ loanPayAmount true (.qfail "boom") = 1100
      ∧ ("Could not query loan state: " ++ "boom"
          ++ ". Using estimated amount: 1100")
          ∈ (step_loanPay true ⟨.qfail "boom", "H", .response okR⟩ {}).report
      ∧ ("Amount:   " ++ toString (loanPayAmount true (.qfail "boom"))
          ++ " USD")
          ∈ (step_loanPay true ⟨.qfail "boom", "H", .response okR⟩ {}).report
      ∧ ((step_loanPay true ⟨.qfail "boom", "H", .response okR⟩ {}).err
            = none ↔
          txResultCode okR.txResult = "tesSUCCESS")) :=
  ⟨by norm_num,
    C6_early_repayment_amount "1000" 1000 "boom" "H" okR {} (by norm_num)⟩

/-- C7: the delegated multi-signature issuance prepares the transaction
with an empty primary signing key, scales the fee to (signers + 1) = 2
times the autofilled base fee, assembles the delegate's multi-signature
with `multisign`, layers the counterparty's co-signature on the assembled
payload, and submits exactly that single payload. -/
theorem C7_multisig_composition (c : Ctx) (fee : Option Nat)
    (vq bq : QueryOutcome) (oc : SubmitOutcome) :
    (loanSetMsPrepared c fee).signingPubKey = some ""
    ∧ (loanSetMsPrepared c fee).fee = some ((fee.getD 12) * 2)
    ∧ loanSetMsBlob c fee = .countersigned .borrower
        (.multisigned [.signedMulti (loanSetMsPrepared c fee) .lender])
    ∧ (step_loanSetMultiSig ⟨vq, bq, fee, oc⟩ c).submitted =
        [loanSetMsBlob c fee] := by
  refine ⟨rfl, rfl, rfl, ?_⟩
  rcases oc with m | r
  · rfl
  · by_cases hok : txResultCode r.txResult = "tesSUCCESS" <;>
      simp [step_loanSetMultiSig, hok]

/-- Every step id that can appear in a run. -/
def allStepIds : List String :=
  earlyIds ++ ["create-loan-broker", "lender-deposits",
    "broker-cover-deposit", "signerlist-set", "loan-set-multisig",
    "loan-set-countersign", "loan-pay", "loan-pay-early",
    "fund-borrower-repayment", "loan-manage-default", "loan-delete",
    "broker-cover-withdraw", "loan-broker-delete", "vault-withdraw",
    "vault-delete", "verify-states"]

theorem evOk_phase5 (o : Oracle) (s : Sched) (c : Ctx) :
    (phase5 o s c).events.all (evOk allStepIds) = true := by
  unfold phase5
  apply all_mergeWith
  · exact evOk_mono (by decide) (evOk_createLoanBroker _ _)
  · exact evOk_mono (by decide) (evOk_lenderDeposits _ _)

theorem evOk_runSharedSetup (o : Oracle) (s : Sched) (c : Ctx) :
    (runSharedSetup o s c).events.all (evOk allStepIds) = true := by
  unfold runSharedSetup
  apply all_seqRun
  · exact evOk_mono (by decide) (evOk_fundWallets _ _)
  intro c1
  apply all_seqRun
  · exact evOk_mono (by decide) (evOk_issuerSetup _ _)
  intro c2
  apply all_seqRun
  · exact evOk_mono (by decide) (evOk_phase3 o s c2)
  intro c3
  apply all_seqRun
  · exact evOk_mono (by decide) (evOk_phase4 o s c3)
  intro c4
  apply all_seqRun
  · exact evOk_phase5 o s c4
  intro c5
  exact evOk_mono (by decide) (evOk_brokerCoverDeposit _ _)

theorem evOk_scenarioTail (sc : ScenarioId) (o : Oracle) (c : Ctx) :
    (scenarioTail sc o c).events.all (evOk allStepIds) = true := by
  cases sc <;> simp only [scenarioTail]
  case loanCreation =>
    apply all_seqRun
    · exact evOk_mono (by decide) (evOk_loanSet _ _)
    intro cx0
    exact evOk_mono (by decide) (evOk_verifyStates _ _)
  case loanPayment =>
    apply all_seqRun
    · exact evOk_mono (by decide) (evOk_loanSet _ _)
    intro cx0
    apply all_seqRun
    · exact evOk_mono (by decide) (evOk_loanPay false _ _)
    intro cx1
    exact evOk_mono (by decide) (evOk_verifyStates _ _)
  case loanDefault =>
    apply all_seqRun
    · exact evOk_mono (by decide) (evOk_loanSet _ _)
    intro cx0
    apply all_seqRun
    · exact evOk_mono (by decide) (evOk_loanManageDefault _ _)
    intro cx1
    apply all_seqRun
    · exact evOk_mono (by decide) (evOk_loanDelete _ _)
    intro cx2
    exact evOk_mono (by decide) (evOk_verifyStates _ _)
  case earlyRepayment =>
    apply all_seqRun
    · exact evOk_mono (by decide) (evOk_loanSet _ _)
    intro cx0
    apply all_seqRun
    · exact evOk_mono (by decide) (evOk_fundBorrowerForRepayment _ _)
    intro cx1
    apply all_seqRun
    · exact evOk_mono (by decide) (evOk_loanPay true _ _)
    intro cx2
    apply all_seqRun
    · exact evOk_mono (by decide) (evOk_loanDelete _ _)
    intro cx3
    exact evOk_mono (by decide) (evOk_verifyStates _ _)
  case fullLifecycle =>
    apply all_seqRun
    · exact evOk_mono (by decide) (evOk_loanSet _ _)
    intro cx0
    apply all_seqRun
    · exact evOk_mono (by decide) (evOk_loanPay false _ _)
    intro cx1
    apply all_seqRun
    · exact evOk_mono (by decide) (evOk_loanManageDefault _ _)
    intro cx2
    apply all_seqRun
    · exact evOk_mono (by decide) (evOk_loanDelete _ _)
    intro cx3
    apply all_seqRun
    · exact evOk_mono (by decide) (evOk_brokerCoverWithdraw _ _)
    intro cx4
    apply all_seqRun
    · exact evOk_mono (by decide) (evOk_loanBrokerDelete _ _)
    intro cx5
    apply all_seqRun
    · exact evOk_mono (by decide) (evOk_vaultWithdraw _ _)
    intro cx6
    exact evOk_mono (by decide) (evOk_vaultDelete _ _)
  case signerlistLoan =>
    apply all_seqRun
    · exact evOk_mono (by decide) (evOk_signerListSet _ _)
    intro cx0
    apply all_seqRun
    · exact evOk_mono (by decide) (evOk_loanSetMultiSig _ _)
    intro cx1
    exact evOk_mono (by decide) (evOk_verifyStates _ _)

theorem evOk_flowBody (o : Oracle) (s : Sched) (sc : ScenarioId) :
    (flowBody o s sc).events.all (evOk allStepIds) = true := by
  unfold flowBody
  apply all_seqRun
  · exact evOk_runSharedSetup o s {}
  · intro c
    exact evOk_scenarioTail sc o c

theorem countP_append (p : Event → Bool) (a b : List Event) :
    countP p (a ++ b) = countP p a + countP p b := by
  simp [countP, List.filter_append]

theorem countP_flow_of_stepLevel {l : List Event}
    (h : l.all (evOk allStepIds) = true) :
    countP isFlowError l = 0 ∧ countP isFlowComplete l = 0 := by
  induction l with
  | nil => exact ⟨rfl, rfl⟩
  | cons e rest ih =>
    rw [List.all_cons, Bool.and_eq_true] at h
    obtain ⟨he, hrest⟩ := h
    obtain ⟨h1, h2⟩ := ih hrest
    unfold evOk at he
    rw [Bool.and_eq_true] at he
    cases e <;> simp [stepLevel] at he ⊢ <;>
      simp [countP, isFlowError, isFlowComplete, List.filter] at h1 h2 ⊢ <;>
      exact ⟨h1, h2⟩

/-- Counterexample for C10: in the all-success loan-creation run whose
verification queries ALL fail (`okOracle.verify` is all-`none`), the
verification step emits no "error" event at all — it emits its "success"
terminal event with placeholder details — and the run still ends in
`flow_complete`.  The claim's "emits a failed step event" is false: the
inner try/catch handlers swallow every query failure before the outer
catch can fire. -/
theorem C10_counterexample :
    countP (isErrorOf "verify-states")
        (runLendingFlow okOracle {} .loanCreation).events = 0
    ∧ countP (isSuccessOf "verify-states")
        (runLendingFlow okOracle {} .loanCreation).events = 1
    ∧ countP isFlowComplete
        (runLendingFlow okOracle {} .loanCreation).events = 1
    ∧ countP isFlowError
        (runLendingFlow okOracle {} .loanCreation).events = 0
    ∧ okOracle.verify =
        ⟨none, none, none, none, none, none, none, none, none, none,
          none⟩ := by
  refine ⟨?_, ?_, ?_, ?_, rfl⟩ <;> decide

/-- C10 (amended): the verification step never propagates a failure —
for every query outcome it throws nothing and emits exactly one terminal
event, with status "success" (query failures only leave placeholder
detail strings); consequently a run whose body completed emits
`flow_complete` (exactly once) and no `flow_error`, whatever the
verification queries returned. -/
theorem C10_amended_verification_never_fails :
    (∀ (v : VerifyOutcome) (c : Ctx),
        (step_verifyStates v c).err = none
      ∧ countP (isSuccessOf "verify-states")
          (step_verifyStates v c).events = 1
      ∧ countP (isErrorOf "verify-states")
          (step_verifyStates v c).events = 0)
    ∧ (∀ (o : Oracle) (s : Sched) (sc : ScenarioId),
        o.connect = none → (flowBody o s sc).err = none →
        countP isFlowComplete (runLendingFlow o s sc).events = 1
        ∧ countP isFlowError (runLendingFlow o s sc).events = 0) := by
  constructor
  · intro v c
    exact ⟨rfl, by simp [step_verifyStates, countP, isSuccessOf],
      by simp [step_verifyStates, countP, isErrorOf]⟩
  · intro o s sc hc hb
    have hbody := countP_flow_of_stepLevel (evOk_flowBody o s sc)
    simp only [runLendingFlow, hc, hb]
    rw [countP_append, countP_append, countP_append, countP_append]
    rw [hbody.1, hbody.2]
    simp [countP, isFlowComplete, isFlowError]

/-- Witness for C10's amended theorem at the all-success oracle with all
verification queries failing. -/
theorem C10_witness :
    okOracle.connect = none ∧ (flowBody okOracle {} .loanCreation).err = none
    ∧ countP isFlowComplete
        (runLendingFlow okOracle {} .loanCreation).events = 1
    ∧ countP isFlowError
        (runLendingFlow okOracle {} .loanCreation).events = 0 := by
  have h := C10_amended_verification_never_fails.2 okOracle {} .loanCreation
    rfl (by decide)
  exact ⟨rfl, by decide, h.1, h.2⟩

/-- C8: when any step of the body raises, the orchestrator emits exactly
one run-terminal `flow_error` event (and no `flow_complete`), whose
payload carries the error message and the joined report accumulated so
far; the run still resolves, returning that joined report.  Moreover
(instantiated at a failing issuer-setup step after successful funding):
no step beyond the failing one emits any event, and no step's "running"
event is emitted more than once — no retry. -/
theorem C8_error_propagation (o : Oracle) (s : Sched) (sc : ScenarioId)
    (e : String) (i l b k : WalletI) (sh : String) (r : SubmitResponse)
    (hc : o.connect = none) (hb : (flowBody o s sc).err = some e) :
    (countP isFlowError (runLendingFlow o s sc).events = 1
      ∧ countP isFlowComplete (runLendingFlow o s sc).events = 0
      ∧ (runLendingFlow o s sc).events =
          [.state_update (.scenario sc.str (getScenarioStepCount sc))]
            ++ (flowBody o s sc).events
            ++ [.flow_error e (runLendingFlow o s sc).returned]
      ∧ (runLendingFlow o s sc).returned =
          joinR (runLendingFlow o s sc).report
      ∧ (runLendingFlow o s sc).report =
          headerReport sc o ++ ["Connected to " ++ network, ""]
            ++ (flowBody o s sc).report ++ failBlock e o.failedIso)
    ∧ (o.fund = .ok i l b k →
       o.issuerSetup = ⟨sh, .response r⟩ →
       txResultCode r.txResult ≠ "tesSUCCESS" →
       eventIdsIn (runLendingFlow o s sc).events
           ["fund-wallets", "issuer-setup"]
        ∧ countP (isRunningOf "fund-wallets")
            (runLendingFlow o s sc).events = 1
        ∧ countP (isRunningOf "issuer-setup")
            (runLendingFlow o s sc).events = 1) := by
  have hbody := countP_flow_of_stepLevel (evOk_flowBody o s sc)
  constructor
  · simp only [runLendingFlow, hc, hb]
    refine ⟨?_, ?_, by trivial, by trivial, by trivial⟩
    · rw [countP_append, countP_append, hbody.1]
      simp [countP, isFlowError]
    · rw [countP_append, countP_append, hbody.2]
      simp [countP, isFlowComplete]
  · intro hf hsi hbad
    have hbody_ev : (flowBody o s sc).events =
        (step_fundWallets (.ok i l b k) ({} : Ctx)).events ++
          (step_issuerSetup ⟨sh, .response r⟩
            (step_fundWallets (.ok i l b k) ({} : Ctx)).ctx).events := by
      simp [flowBody, runSharedSetup, seqRun, step_fundWallets,
        step_issuerSetup, hf, hsi, hbad]
    simp only [runLendingFlow, hc, hb]
    rw [hbody_ev]
    refine ⟨?_, ?_, ?_⟩
    · intro ev hev sid hsid
      rcases List.mem_append.mp hev with h1 | h1
      · rcases List.mem_append.mp h1 with h2 | h2
        · simp only [List.mem_singleton] at h2
          rw [h2] at hsid; simp [stepIdOf] at hsid
        · rcases List.mem_append.mp h2 with h3 | h3
          · have := eventIdsIn_of_all
              (evOk_fundWallets (.ok i l b k) ({} : Ctx)) ev h3 sid hsid
            simp only [List.mem_singleton] at this
            simp [this]
          · have := eventIdsIn_of_all
              (evOk_issuerSetup ⟨sh, .response r⟩ _) ev h3 sid hsid
            simp only [List.mem_singleton] at this
            simp [this]
      · simp only [List.mem_singleton] at h1
        rw [h1] at hsid; simp [stepIdOf] at hsid
    · simp [countP, isRunningOf, step_fundWallets, step_issuerSetup, hbad,
        List.filter_append]
    · simp [countP, isRunningOf, step_fundWallets, step_issuerSetup, hbad,
        List.filter_append]

/-- A failing response and an oracle whose issuer-setup is rejected. -/
def badR : SubmitResponse := ⟨some "tecNO_PERMISSION", "HX", []⟩

def badOracle : Oracle :=
  { okOracle with issuerSetup := ⟨"SH", .response badR⟩ }

/-- Witness for C8 at the oracle whose issuer-setup step is rejected. -/
theorem C8_witness :
    badOracle.connect = none
    ∧ (flowBody badOracle {} .loanCreation).err =
        some ("AccountSet failed: " ++ txResultCode badR.txResult)
    ∧ countP isFlowError
        (runLendingFlow badOracle {} .loanCreation).events = 1
    ∧ eventIdsIn (runLendingFlow badOracle {} .loanCreation).events
        ["fund-wallets", "issuer-setup"] := by
  have h := C8_error_propagation badOracle {} .loanCreation
    ("AccountSet failed: " ++ txResultCode badR.txResult)
    ⟨"rIssuer", "sI"⟩ ⟨"rLender", "sL"⟩ ⟨"rBorrower", "sB"⟩
    ⟨"rBroker", "sK"⟩ "SH" badR rfl (by decide)
  exact ⟨rfl, by decide, h.1.1, (h.2 rfl rfl (by decide)).1⟩

/-- A successful validated response behind a plain step interaction. -/
def okTxIO (io : TxStepIO) : Prop :=
  ∃ r, io.outcome = .response r ∧ txResultCode r.txResult = "tesSUCCESS"

/-- The error with which `step_batchIssuerPayments` rejects, as a function
of the submit outcome alone. -/
def batchErr : SubmitOutcome → Option String
  | .thrown m => some m
  | .response r =>
    if txResultCode r.txResult = "tesSUCCESS" then none
    else some ("Batch payments failed: " ++ txResultCode r.txResult)

theorem step_batch_err (oc : SubmitOutcome) (c : Ctx) :
    (step_batchIssuerPayments oc c).err = batchErr oc := by
  rcases oc with m | r
  · rfl
  · by_cases hok : txResultCode r.txResult = "tesSUCCESS" <;>
      simp [step_batchIssuerPayments, batchErr, hok]

theorem err_issuerSetup_ok (io : TxStepIO) (h : okTxIO io) :
    ∀ c, (step_issuerSetup io c).err = none := by
  obtain ⟨r, h1, h2⟩ := h
  rcases io with ⟨sh, oc⟩
  simp only at h1
  subst h1
  intro c
  simp [step_issuerSetup, h2]

theorem err_lenderTrustline_ok (io : TxStepIO) (h : okTxIO io) :
    ∀ c, (step_lenderTrustline io c).err = none := by
  obtain ⟨r, h1, h2⟩ := h
  rcases io with ⟨sh, oc⟩
  simp only at h1
  subst h1
  intro c
  simp [step_lenderTrustline, h2]

theorem err_brokerTrustline_ok (io : TxStepIO) (h : okTxIO io) :
    ∀ c, (step_brokerTrustline io c).err = none := by
  obtain ⟨r, h1, h2⟩ := h
  rcases io with ⟨sh, oc⟩
  simp only at h1
  subst h1
  intro c
  simp [step_brokerTrustline, h2]

theorem err_borrowerTrustline_ok (io : TxStepIO) (h : okTxIO io) :
    ∀ c, (step_borrowerTrustline io c).err = none := by
  obtain ⟨r, h1, h2⟩ := h
  rcases io with ⟨sh, oc⟩
  simp only at h1
  subst h1
  intro c
  simp [step_borrowerTrustline, h2]

theorem err_issuerSendsUSDLender_ok (io : TxStepIO) (h : okTxIO io) :
    ∀ c, (step_issuerSendsUSDLender io c).err = none := by
  obtain ⟨r, h1, h2⟩ := h
  rcases io with ⟨sh, oc⟩
  simp only at h1
  subst h1
  intro c
  simp [step_issuerSendsUSDLender, h2]

theorem err_issuerSendsUSDBroker_ok (io : TxStepIO) (h : okTxIO io) :
    ∀ c, (step_issuerSendsUSDBroker io c).err = none := by
  obtain ⟨r, h1, h2⟩ := h
  rcases io with ⟨sh, oc⟩
  simp only at h1
  subst h1
  intro c
  simp [step_issuerSendsUSDBroker, h2]

theorem err_createVault_ok (io : TxStepIO) (h : okTxIO io) :
    ∀ c, (step_createVault io c).err = none := by
  obtain ⟨r, h1, h2⟩ := h
  rcases io with ⟨sh, oc⟩
  simp only at h1
  subst h1
  intro c
  simp [step_createVault, h2]

theorem err_createLoanBroker_ok (io : TxStepIO) (h : okTxIO io) :
    ∀ c, (step_createLoanBroker io c).err = none := by
  obtain ⟨r, h1, h2⟩ := h
  rcases io with ⟨sh, oc⟩
  simp only at h1
  subst h1
  intro c
  simp [step_createLoanBroker, h2]

theorem err_lenderDeposits_ok (io : TxStepIO) (h : okTxIO io) :
    ∀ c, (step_lenderDeposits io c).err = none := by
  obtain ⟨r, h1, h2⟩ := h
  rcases io with ⟨sh, oc⟩
  simp only at h1
  subst h1
  intro c
  simp [step_lenderDeposits, h2]

theorem err_brokerCoverDeposit_ok (io : TxStepIO) (h : okTxIO io) :
    ∀ c, (step_brokerCoverDeposit io c).err = none := by
  obtain ⟨r, h1, h2⟩ := h
  rcases io with ⟨sh, oc⟩
  simp only at h1
  subst h1
  intro c
  simp [step_brokerCoverDeposit, h2]

theorem err_fundWallets_ok (i l b k : WalletI) :
    ∀ c, (step_fundWallets (.ok i l b k) c).err = none := by
  intro c; rfl

/-- The "running" events of the two fallback transfer steps and of the
cover-deposit step. -/
def runEvL : Event := .step_update ⟨"issuer-sends-usd-lender",
  "Issuer Sends USD to Lender",
  "Issuer sends 10,000 USD to the Lender's wallet", "running",
  none, some "Payment", none, none⟩

def runEvB : Event := .step_update ⟨"issuer-sends-usd-broker",
  "Issuer Sends USD to Broker",
  "Issuer sends 1,000 USD to Broker for first-loss capital", "running",
  none, some "Payment", none, none⟩

def runEvCover : Event := .step_update ⟨"broker-cover-deposit",
  "Broker Deposits First-Loss Capital",
  "Broker deposits first-loss capital to enable loan issuance (LoanBrokerCoverDeposit)",
  "running", none, some "LoanBrokerCoverDeposit", none, none⟩

theorem head_sendLender (io : TxStepIO) (c : Ctx) :
    ∃ t, (step_issuerSendsUSDLender io c).events = runEvL :: t := by
  rcases io with ⟨sh, oc⟩
  rcases oc with m | r
  · exact ⟨_, rfl⟩
  · by_cases hok : txResultCode r.txResult = "tesSUCCESS" <;>
      simp [step_issuerSendsUSDLender, hok, runEvL]

theorem head_sendBroker (io : TxStepIO) (c : Ctx) :
    ∃ t, (step_issuerSendsUSDBroker io c).events = runEvB :: t := by
  rcases io with ⟨sh, oc⟩
  rcases oc with m | r
  · exact ⟨_, rfl⟩
  · by_cases hok : txResultCode r.txResult = "tesSUCCESS" <;>
      simp [step_issuerSendsUSDBroker, hok, runEvB]

theorem head_coverDeposit (io : TxStepIO) (c : Ctx) :
    ∃ t, (step_brokerCoverDeposit io c).events = runEvCover :: t := by
  rcases io with ⟨sh, oc⟩
  rcases oc with m | r
  · exact ⟨_, rfl⟩
  · by_cases hok : txResultCode r.txResult = "tesSUCCESS" <;>
      simp [step_brokerCoverDeposit, hok, runEvCover]

theorem header_mem_sendLender (io : TxStepIO) (c : Ctx) (h : okTxIO io) :
    "ISSUER SENDS USD TO LENDER" ∈ (step_issuerSendsUSDLender io c).report := by
  obtain ⟨r, h1, h2⟩ := h
  rcases io with ⟨sh, oc⟩
  simp only at h1
  subst h1
  simp [step_issuerSendsUSDLender, h2]

theorem header_mem_sendBroker (io : TxStepIO) (c : Ctx) (h : okTxIO io) :
    "ISSUER SENDS USD TO BROKER (for cover)"
      ∈ (step_issuerSendsUSDBroker io c).report := by
  obtain ⟨r, h1, h2⟩ := h
  rcases io with ⟨sh, oc⟩
  simp only at h1
  subst h1
  simp [step_issuerSendsUSDBroker, h2]

/-- The step ids reachable in the shared setup when the batch step
succeeds (no fallback transfers). -/
def noSendsIds : List String :=
  ["fund-wallets", "issuer-setup", "lender-trustline", "broker-trustline",
   "borrower-trustline", "batch-issuer-payments", "create-vault",
   "create-loan-broker", "lender-deposits", "broker-cover-deposit"]

/-- C3: in a shared-setup run whose other steps all succeed, if the batch
issuer-payments step rejects with message `e` then the fallback note is
appended to the report, the individual transfer to the lender and then to
the broker both run (their "running" events appear in that order, and the
note precedes both steps' report blocks), the run continues to the final
cover-deposit phase, and the whole shared setup resolves without error;
if the batch step succeeds, no individual-transfer step emits any
event. -/
theorem C3_batch_fallback (o : Oracle) (s : Sched) (e : String)
    (hfund : ∃ i l b k, o.fund = .ok i l b k)
    (hok2 : okTxIO o.issuerSetup) (hok3a : okTxIO o.lenderTrustline)
    (hok3b : okTxIO o.brokerTrustline) (hok3c : okTxIO o.borrowerTrustline)
    (hokv : okTxIO o.createVault) (hokl : okTxIO o.sendUSDLender)
    (hokb : okTxIO o.sendUSDBroker) (hoklb : okTxIO o.createLoanBroker)
    (hokd : okTxIO o.lenderDeposits) (hokc : okTxIO o.brokerCoverDeposit) :
    (batchErr o.batchPayments = some e →
      (runSharedSetup o s {}).err = none
      ∧ ("Batch payments unavailable (" ++ e
          ++ "), using sequential fallback...")
          ∈ (runSharedSetup o s {}).report
      ∧ List.Sublist [runEvL, runEvB] (runSharedSetup o s {}).events
      ∧ List.Sublist
          ["Batch payments unavailable (" ++ e
            ++ "), using sequential fallback...",
           "ISSUER SENDS USD TO LENDER",
           "ISSUER SENDS USD TO BROKER (for cover)"]
          (runSharedSetup o s {}).report
      ∧ runEvCover ∈ (runSharedSetup o s {}).events)
    ∧ (batchErr o.batchPayments = none →
      ∀ ev ∈ (runSharedSetup o s {}).events,
        stepIdOf ev ≠ some "issuer-sends-usd-lender" ∧
        stepIdOf ev ≠ some "issuer-sends-usd-broker") := by
  obtain ⟨i, l, b, k, hf⟩ := hfund
  have eF : ∀ c, (step_fundWallets o.fund c).err = none := by
    rw [hf]; exact err_fundWallets_ok i l b k
  have e2 := err_issuerSetup_ok o.issuerSetup hok2
  have e3a := err_lenderTrustline_ok o.lenderTrustline hok3a
  have e3b := err_brokerTrustline_ok o.brokerTrustline hok3b
  have e3c := err_borrowerTrustline_ok o.borrowerTrustline hok3c
  have eV := err_createVault_ok o.createVault hokv
  have eL := err_issuerSendsUSDLender_ok o.sendUSDLender hokl
  have eB := err_issuerSendsUSDBroker_ok o.sendUSDBroker hokb
  have eLb := err_createLoanBroker_ok o.createLoanBroker hoklb
  have eD := err_lenderDeposits_ok o.lenderDeposits hokd
  have eC := err_brokerCoverDeposit_ok o.brokerCoverDeposit hokc
  have ep3 : ∀ c, (phase3 o s c).err = none := fun c => by
    simp [phase3, e3a, e3b, e3c]
  have ep5 : ∀ c, (phase5 o s c).err = none := fun c => by
    simp [phase5, eLb, eD]
  constructor
  · intro hbe
    have eBat : ∀ c, (step_batchIssuerPayments o.batchPayments c).err
        = some e := fun c => by rw [step_batch_err]; exact hbe
    have hpwf : ∀ c, paymentsWithFallback o c =
        ⟨(step_batchIssuerPayments o.batchPayments c).events ++
            ((step_issuerSendsUSDLender o.sendUSDLender c).events ++
              (step_issuerSendsUSDBroker o.sendUSDBroker
                (step_issuerSendsUSDLender o.sendUSDLender c).ctx).events),
          (step_batchIssuerPayments o.batchPayments c).report ++
              ["Batch payments unavailable (" ++ e
                ++ "), using sequential fallback...", ""] ++
            ((step_issuerSendsUSDLender o.sendUSDLender c).report ++
              (step_issuerSendsUSDBroker o.sendUSDBroker
                (step_issuerSendsUSDLender o.sendUSDLender c).ctx).report),
          (step_issuerSendsUSDBroker o.sendUSDBroker
            (step_issuerSendsUSDLender o.sendUSDLender c).ctx).ctx,
          (step_issuerSendsUSDBroker o.sendUSDBroker
            (step_issuerSendsUSDLender o.sendUSDLender c).ctx).err, []⟩ :=
      fun c => by
        simp only [paymentsWithFallback, eBat c]
        rw [seqRun_ok _ (eL c)]
    have epwf : ∀ c, (paymentsWithFallback o c).err = none := fun c => by
      rw [hpwf c]; exact eB _
    have ep4 : ∀ c, (phase4 o s c).err = none := fun c => by
      simp [phase4, epwf, eV]
    set F := step_fundWallets o.fund ({} : Ctx) with hFd
    set S2 := step_issuerSetup o.issuerSetup F.ctx with hS2d
    set P3 := phase3 o s S2.ctx with hP3d
    set P4 := phase4 o s P3.ctx with hP4d
    set P5 := phase5 o s P4.ctx with hP5d
    set CD := step_brokerCoverDeposit o.brokerCoverDeposit P5.ctx with hCDd
    have hev : (runSharedSetup o s {}).events =
        F.events ++ (S2.events ++ (P3.events ++ (P4.events ++
          (P5.events ++ CD.events)))) := by
      simp only [runSharedSetup, seqRun, eF, e2, ep3, ep4, ep5,
        hFd, hS2d, hP3d, hP4d, hP5d, hCDd]
    have hrep : (runSharedSetup o s {}).report =
        F.report ++ (S2.report ++ (P3.report ++ (P4.report ++
          (P5.report ++ CD.report)))) := by
      simp only [runSharedSetup, seqRun, eF, e2, ep3, ep4, ep5,
        hFd, hS2d, hP3d, hP4d, hP5d, hCDd]
    have herr : (runSharedSetup o s {}).err = none := by
      simp only [runSharedSetup, seqRun, eF, e2, ep3, ep4, ep5]
      exact eC _
    refine ⟨herr, ?_, ?_, ?_, ?_⟩
    · rw [hrep]
      refine List.mem_append_right _ (List.mem_append_right _
        (List.mem_append_right _ (List.mem_append_left _ ?_)))
      rw [hP4d]
      simp only [phase4]
      apply (mem_mergeWith _ _ _ _).mpr
      right
      rw [hpwf]
      simp
    · rw [hev]
      obtain ⟨tL, hL⟩ := head_sendLender o.sendUSDLender P3.ctx
      obtain ⟨tB, hB⟩ := head_sendBroker o.sendUSDBroker
        (step_issuerSendsUSDLender o.sendUSDLender P3.ctx).ctx
      have hLB : List.Sublist ([runEvL] ++ [runEvB])
          ((step_issuerSendsUSDLender o.sendUSDLender P3.ctx).events ++
            (step_issuerSendsUSDBroker o.sendUSDBroker
              (step_issuerSendsUSDLender o.sendUSDLender P3.ctx).ctx).events) :=
        List.Sublist.append
          (List.singleton_sublist.mpr
            (by rw [hL]; exact List.mem_cons_self _ _))
          (List.singleton_sublist.mpr
            (by rw [hB]; exact List.mem_cons_self _ _))
      have hpw : List.Sublist [runEvL, runEvB]
          (paymentsWithFallback o P3.ctx).events := by
        rw [hpwf]
        exact hLB.trans (List.sublist_append_right _ _)
      have hp4 : List.Sublist [runEvL, runEvB] P4.events := by
        rw [hP4d]
        simp only [phase4]
        exact hpw.trans (sublist_mergeWith_right _ _ _)
      exact ((((hp4.trans (List.sublist_append_left _ _)).trans
        (List.sublist_append_right _ _)).trans
        (List.sublist_append_right _ _)).trans
        (List.sublist_append_right _ _))
    · rw [hrep]
      have hLh := header_mem_sendLender o.sendUSDLender P3.ctx hokl
      have hBh := header_mem_sendBroker o.sendUSDBroker
        (step_issuerSendsUSDLender o.sendUSDLender P3.ctx).ctx hokb
      have hinner : List.Sublist
          (["Batch payments unavailable (" ++ e
            ++ "), using sequential fallback..."] ++
           (["ISSUER SENDS USD TO LENDER"] ++
            ["ISSUER SENDS USD TO BROKER (for cover)"]))
          (((step_batchIssuerPayments o.batchPayments P3.ctx).report ++
              ["Batch payments unavailable (" ++ e
                ++ "), using sequential fallback...", ""]) ++
            ((step_issuerSendsUSDLender o.sendUSDLender P3.ctx).report ++
              (step_issuerSendsUSDBroker o.sendUSDBroker
                (step_issuerSendsUSDLender o.sendUSDLender P3.ctx).ctx).report)) := by
        refine List.Sublist.append ?_ (List.Sublist.append ?_ ?_)
        · refine (List.singleton_sublist.mpr ?_).trans
            (List.sublist_append_right _ _)
          exact List.mem_cons_self _ _
        · exact List.singleton_sublist.mpr hLh
        · exact List.singleton_sublist.mpr hBh
      have hpw : List.Sublist
          ["Batch payments unavailable (" ++ e
            ++ "), using sequential fallback...",
           "ISSUER SENDS USD TO LENDER",
           "ISSUER SENDS USD TO BROKER (for cover)"]
          (paymentsWithFallback o P3.ctx).report := by
        rw [hpwf]
        exact hinner
      have hp4 : List.Sublist
          ["Batch payments unavailable (" ++ e
            ++ "), using sequential fallback...",
           "ISSUER SENDS USD TO LENDER",
           "ISSUER SENDS USD TO BROKER (for cover)"]
          P4.report := by
        rw [hP4d]
        simp only [phase4]
        exact hpw.trans (sublist_mergeWith_right _ _ _)
      exact ((((hp4.trans (List.sublist_append_left _ _)).trans
        (List.sublist_append_right _ _)).trans
        (List.sublist_append_right _ _)).trans
        (List.sublist_append_right _ _))
    · rw [hev]
      obtain ⟨tc, hcv⟩ := head_coverDeposit o.brokerCoverDeposit P5.ctx
      refine List.mem_append_right _ (List.mem_append_right _
        (List.mem_append_right _ (List.mem_append_right _
          (List.mem_append_right _ ?_))))
      rw [hCDd, hcv]
      exact List.mem_cons_self _ _
  · intro hbn
    have hpwf0 : ∀ c, (paymentsWithFallback o c).events.all
        (evOk noSendsIds) = true := fun c => by
      have hz : (step_batchIssuerPayments o.batchPayments c).err = none := by
        rw [step_batch_err]; exact hbn
      simp only [paymentsWithFallback, hz]
      exact evOk_mono (by decide) (evOk_batchIssuerPayments _ _)
    have hp4 : ∀ c, (phase4 o s c).events.all (evOk noSendsIds) = true :=
      fun c => by
        simp only [phase4]
        exact all_mergeWith _ _ _ _
          (evOk_mono (by decide) (evOk_createVault _ _)) (hpwf0 c)
    have hall : (runSharedSetup o s {}).events.all (evOk noSendsIds)
        = true := by
      unfold runSharedSetup
      apply all_seqRun
      · exact evOk_mono (by decide) (evOk_fundWallets _ _)
      intro c1
      apply all_seqRun
      · exact evOk_mono (by decide) (evOk_issuerSetup _ _)
      intro c2
      apply all_seqRun
      · simp only [phase3]
        apply all_mergeWith
        · exact evOk_mono (by decide) (evOk_lenderTrustline _ _)
        apply all_mergeWith
        · exact evOk_mono (by decide) (evOk_brokerTrustline _ _)
        · exact evOk_mono (by decide) (evOk_borrowerTrustline _ _)
      intro c3
      apply all_seqRun
      · exact hp4 c3
      intro c4
      apply all_seqRun
      · simp only [phase5]
        apply all_mergeWith
        · exact evOk_mono (by decide) (evOk_createLoanBroker _ _)
        · exact evOk_mono (by decide) (evOk_lenderDeposits _ _)
      intro c5
      exact evOk_mono (by decide) (evOk_brokerCoverDeposit _ _)
    intro ev hev
    have h := eventIdsIn_of_all hall ev hev
    constructor <;> intro hbad2 <;> have h2 := h _ hbad2 <;>
      revert h2 <;> decide

/-- An oracle identical to `okOracle` except that the Batch submission
throws (e.g. the amendment is unavailable). -/
def fallbackOracle : Oracle :=
  { okOracle with batchPayments := .thrown "Batch not enabled" }

/-- Witness for C3 at the concrete oracle whose batch step throws: the
fallback note is in the report, both individual transfers run in order,
the cover-deposit phase still runs, and the setup resolves. -/
theorem C3_witness :
    batchErr fallbackOracle.batchPayments = some "Batch not enabled"
    ∧ (runSharedSetup fallbackOracle {} {}).err = none
    ∧ ("Batch payments unavailable (" ++ "Batch not enabled"
        ++ "), using sequential fallback...")
        ∈ (runSharedSetup fallbackOracle {} {}).report
    ∧ List.Sublist [runEvL, runEvB]
        (runSharedSetup fallbackOracle {} {}).events
    ∧ runEvCover ∈ (runSharedSetup fallbackOracle {} {}).events := by
  have h := (C3_batch_fallback fallbackOracle {} "Batch not enabled"
    ⟨_, _, _, _, rfl⟩ ⟨okR, rfl, by decide⟩ ⟨okR, rfl, by decide⟩
    ⟨okR, rfl, by decide⟩ ⟨okR, rfl, by decide⟩ ⟨vaultR, rfl, by decide⟩
    ⟨okR, rfl, by decide⟩ ⟨okR, rfl, by decide⟩ ⟨brokerR, rfl, by decide⟩
    ⟨okR, rfl, by decide⟩ ⟨okR, rfl, by decide⟩).1 rfl
  exact ⟨rfl, h.1, h.2.1, h.2.2.1, h.2.2.2.2⟩

theorem applyEvent_roles (now : String) (s : DashState) (ev : Event) :
    (applyEvent now s ev).parties.map DashParty.role =
      s.parties.map DashParty.role := by
  cases ev with
  | party_update q =>
    simp only [applyEvent, List.map_map]
    apply List.map_congr_left
    intro p _
    by_cases h : p.role = q.role
    · simp [h, mergeParty, Function.comp]
    · simp [h, Function.comp]
  | step_update st => rfl
  | state_update u => cases u <;> rfl
  | flow_complete rep => rfl
  | flow_error m rep => rfl

/-- C9: the dashboard state holds exactly four Parties, one per role,
from initialisation on; every event preserves the number of parties and
the (per-position) roles; a `party_update` rewrites exactly the parties
whose role matches the patch (merging the patch fields) and leaves every
other position untouched. -/
theorem C9_party_role_invariants :
    (initialState.parties.map DashParty.role =
        [.issuer, .lender, .borrower, .broker]
      ∧ initialState.parties.length = 4)
    ∧ (∀ (sel : String), (startState sel).parties.map DashParty.role =
        [.issuer, .lender, .borrower, .broker])
    ∧ (∀ (now : String) (s : DashState) (ev : Event),
        (applyEvent now s ev).parties.map DashParty.role =
          s.parties.map DashParty.role
        ∧ (applyEvent now s ev).parties.length = s.parties.length)
    ∧ (∀ (p : DashParty) (q : PartyPatch), (mergeParty p q).role = q.role)
    ∧ (∀ (now : String) (s : DashState) (q : PartyPatch) (i : Nat),
        (applyEvent now s (.party_update q)).parties[i]? =
          (s.parties[i]?).map fun p =>
            if p.role = q.role then mergeParty p q else p)
    ∧ (∀ (now : String) (s : DashState) (ev : Event),
        s.parties.map DashParty.role =
          [.issuer, .lender, .borrower, .broker] →
        (applyEvent now s ev).parties.map DashParty.role =
          [.issuer, .lender, .borrower, .broker]) := by
  refine ⟨⟨rfl, rfl⟩, fun sel => rfl, ?_, fun p q => rfl, ?_, ?_⟩
  · intro now s ev
    refine ⟨applyEvent_roles now s ev, ?_⟩
    have h := congrArg List.length (applyEvent_roles now s ev)
    simpa using h
  · intro now s q i
    simp [applyEvent, List.getElem?_map]
  · intro now s ev h
    rw [applyEvent_roles now s ev, h]

/-- Witness for C9: a lender balance patch applied to the freshly started
state keeps the four roles intact. -/
theorem C9_witness :
    (applyEvent "T" (startState "loan-creation")
        (.party_update ⟨.lender, none, none, none, none,
          some "10,000 USD"⟩)).parties.map DashParty.role =
      [.issuer, .lender, .borrower, .broker] :=
  C9_party_role_invariants.2.2.2.2.2 "T" (startState "loan-creation")
    (.party_update ⟨.lender, none, none, none, none, some "10,000 USD"⟩)
    (by decide)
